import Mathlib

/-!
L7NH EtherCAT torque controller: embedding of the two SOEM variants.

Shallow embedding of `soem_l7nh_win32.c` (thread `EtherCATThread`, called v1 below) and
`soem_l7nh_win32_v2.c` (threads `RunLoop` and `EtherCATThread`, called v2 below), of the
window procedures of both, and of the window procedure of the simulator `main_new.c`.

Every call that leaves the program (SOEM library calls, window-text updates, `Sleep`) and
every access to the process-data image is appended to a trace of `Event`s. What the
outside world answers is read from an `Env`: the SOEM work counters, the data a read
delivers, and the value of the `volatile` flag `run_flag` each time the loop condition
is evaluated. The `Env` also holds the numbers of the two window handles that the threads
of v2 pass to `UpdateStaticText` in the place of a control identifier: that function looks
the number up with `GetDlgItem` and sets the text only when a child window is found.

The `while (run_flag)` loops need not end. A thread is therefore followed for a number
`fuel` of evaluations of its loop condition: the functions return the state reached so
far, together with the exit code once the thread has returned. Properties of all events
are proved for every `fuel`, so they hold of runs that never end as well; that a thread
returns when `run_flag` reads false is proved separately (`RunLoop_returns`,
`EtherCATThread_v1_returns`).
-/

namespace L7NH

/-! ## Constants of the sources -/

def DRIVE_SLAVE : Nat := 1

def IDX_CONTROLWORD : Nat := 0x6040
def IDX_STATUSWORD : Nat := 0x6041
def IDX_MODE_OF_OPERATION : Nat := 0x6060
def IDX_TARGET_TORQUE : Nat := 0x6071
def IDX_ACTUAL_VELOCITY : Nat := 0x606C

def CW_SHUTDOWN : Nat := 0x0006
def CW_SWITCH_ON : Nat := 0x0007
def CW_ENABLE_OPERATION : Nat := 0x000F
def CW_QUICK_STOP : Nat := 0x0002
def CW_DISABLE_VOLTAGE : Nat := 0x0000
def CW_FAULT_RESET : Nat := 0x0080

/-- SOEM bus states (`ec_state` of SOEM's ethercattype.h, a library outside the repository). -/
def EC_STATE_SAFE_OP : Nat := 0x04

/-- SOEM bus state OPERATIONAL (`ec_state` of SOEM's ethercattype.h). -/
def EC_STATE_OPERATIONAL : Nat := 0x08

/-- The local `int32_t torque_set = 1000` of v1 `EtherCATThread`. -/
def torque_set_v1 : Int := 1000

/-- The local `int16_t torque_set = 500` of v2 `RunLoop`. -/
def torque_set_v2 : Int := 500

/-! ## Machine integers -/

/-- Value of an `int32_t` holding the low 32 bits of `x`. -/
def toS32 (x : Int) : Int := (x + 2147483648) % 4294967296 - 2147483648

/-- Bit pattern of a 16-bit object holding `x` (two's complement for negative `x`). -/
def toU16 (x : Int) : Nat := (x % 65536).toNat

/-! ## Events and the outside world -/

/-- The child windows of the main window: the two static controls that show text
(`hStaticRPM`, `hStaticState`; in the simulators `hRPMLabel`, `hStatusLabel`) and the three
buttons of v2. -/
inductive Control where
  | rpm
  | state
  | connect
  | start
  | stop
  deriving DecidableEq, Repr

/-- One observable step of a thread. -/
inductive Event where
  | ec_init (ifname : String)
  | ec_config_init
  | ec_config_map
  | ec_configdc
  | ec_statecheck (slave state : Nat)
  | ec_writestate (slave : Nat)
  | ec_close
  /-- Call `ec_SDOwrite(slave, index, sub, FALSE, size, &val, ...)`. -/
  | SDOwrite (slave index sub size : Nat) (val : Int)
  /-- Call `ec_SDOread(slave, index, sub, FALSE, &size, out, ...)`. -/
  | SDOread (slave index sub size : Nat)
  /-- Call `ec_send_processdata()`; carries the four bytes at the drive's output pointer that the
  frame transmits (`none` when the output pointer is null). -/
  | send_processdata (out : Option (List Nat))
  | receive_processdata
  /-- A 16-bit store into the process-data image at byte offset `addr`. -/
  | store16 (addr word : Nat)
  /-- A 32-bit load from the process-data image at byte offset `addr`. -/
  | load32 (addr : Nat)
  /-- The call `SetWindowTextA(h, txt)` with `h` the handle of the child window `ctl`. -/
  | SetText (ctl : Control) (txt : String)
  | Sleep (ms : Nat)
  deriving DecidableEq, Repr

/-- The outside world. Answers of the bus are functions of the history (the trace up to
and including the request), so a device may react to everything it has been sent. -/
structure Env where
  /-- Value read from `run_flag` at the k-th evaluation of the loop condition. -/
  run_flag : Nat → Bool
  /-- Work counter returned by `ec_SDOwrite`. -/
  SDOwrite : List Event → Int
  /-- Work counter returned by `ec_SDOread` and the value it leaves in the buffer
  (`none`: buffer untouched). -/
  SDOread : List Event → Int × Option Int
  /-- Work counter returned by `ec_receive_processdata` and the bytes it copies to the
  drive's input pointer. -/
  receive : List Event → Int × List Nat
  /-- The field `ec_slave[slave].outputs` as an offset into `ec_IOmap` (`none`: NULL). -/
  outputs : Nat → Option Nat
  /-- The field `ec_slave[slave].inputs` as an offset into `ec_IOmap` (`none`: NULL). -/
  inputs : Nat → Option Nat
  /-- The global `ifname` when the thread starts. -/
  ifname : String
  /-- Result of `ec_init`. -/
  ec_init : Int
  /-- Result of `ec_config_init`. -/
  ec_config_init : Int
  /-- The global `ec_slavecount` after `ec_config_init`. -/
  ec_slavecount : Int
  /-- The field `ec_slave[DRIVE_SLAVE].state` after the last `ec_statecheck`. -/
  slave_state : Nat
  /-- Value read from `connected_flag` at the k-th evaluation of the condition of the
  loop `while (connected_flag)` of the connect thread of v2. -/
  connected_flag : Nat → Bool := fun _ => false
  /-- Value of the expression `(int)hStaticRPM` of v2: the window handle `CreateWindowA`
  returned for the static control with identifier 20, as a number. -/
  hStaticRPM : Int
  /-- Value of the expression `(int)hStaticState` of v2: the window handle `CreateWindowA`
  returned for the static control with identifier 21, as a number. -/
  hStaticState : Int

/-- State of one thread. -/
structure St where
  /-- Events so far, oldest first. -/
  trace : List Event
  /-- Number of evaluations of the loop condition so far. -/
  polls : Nat
  /-- The process-data image `ec_IOmap`, one byte per offset. -/
  ec_IOmap : Nat → Nat
  /-- Last value this thread wrote to `run_flag`. -/
  run_flag : Bool
  /-- Last value this thread wrote to `connected_flag` (v2 only). -/
  connected_flag : Bool := false
  /-- Number of evaluations of the condition of `while (connected_flag)` so far (v2 only). -/
  waits : Nat := 0

/-- Append one event. -/
def emit (s : St) (e : Event) : St := { s with trace := s.trace ++ [e] }

/-- Events of `t` that come after those of `s`. -/
def newEvents (s t : St) : List Event := t.trace.drop s.trace.length

/-! ## Process-data image -/

def store8 (m : Nat → Nat) (a v : Nat) : Nat → Nat := fun i => if i = a then v % 256 else m i

/-- Little-endian 16-bit store. -/
def store16le (m : Nat → Nat) (a w : Nat) : Nat → Nat :=
  store8 (store8 m a (w % 256)) (a + 1) (w / 256)

/-- Little-endian 32-bit load, unsigned. -/
def load32le (m : Nat → Nat) (a : Nat) : Nat :=
  m a + 256 * m (a + 1) + 65536 * m (a + 2) + 16777216 * m (a + 3)

/-- Copy `bytes` to offsets `a`, `a+1`, ... -/
def storeBytes (m : Nat → Nat) (a : Nat) : List Nat → Nat → Nat
  | [] => m
  | b :: bs => storeBytes (store8 m a b) (a + 1) bs

/-- The statement `*p = w` for a 16-bit pointer `p` into the image. -/
def poke16 (s : St) (p w : Nat) : St :=
  { emit s (Event.store16 p (w % 65536)) with ec_IOmap := store16le s.ec_IOmap p (w % 65536) }

/-- The expression `*p` for an `int32_t` pointer `p` into the image. -/
def peek32 (s : St) (p : Nat) : Int × St :=
  (toS32 (load32le s.ec_IOmap p), emit s (Event.load32 p))

/-! ## Library calls -/

def ec_SDOwrite (env : Env) (s : St) (slave idx sub size : Nat) (val : Int) : Int × St :=
  let s1 := emit s (Event.SDOwrite slave idx sub size val)
  (env.SDOwrite s1.trace, s1)

/-- Returns the work counter and the new content of the buffer `out`. -/
def ec_SDOread (env : Env) (s : St) (slave idx sub size : Nat) (out : Int) : Int × Int × St :=
  let s1 := emit s (Event.SDOread slave idx sub size)
  ((env.SDOread s1.trace).1, ((env.SDOread s1.trace).2.map toS32).getD out, s1)

def ec_send_processdata (env : Env) (s : St) : St :=
  emit s (Event.send_processdata
    ((env.outputs DRIVE_SLAVE).map fun a =>
      [s.ec_IOmap a, s.ec_IOmap (a + 1), s.ec_IOmap (a + 2), s.ec_IOmap (a + 3)]))

def ec_receive_processdata (env : Env) (s : St) : Int × St :=
  let s1 := emit s Event.receive_processdata
  ((env.receive s1.trace).1,
    match env.inputs DRIVE_SLAVE with
    | none => s1
    | some a => { s1 with ec_IOmap := storeBytes s1.ec_IOmap a (env.receive s1.trace).2 })

def Sleep (s : St) (ms : Nat) : St := emit s (Event.Sleep ms)

/-- The function `SetRPMText` of v1. -/
def SetRPMText (s : St) (txt : String) : St := emit s (Event.SetText Control.rpm txt)

/-- The call `GetDlgItem(hWnd, id)` of v2 on the main window: the child window that
`WM_CREATE` (lines 241-250) created under the identifier `id`, `none` for NULL when there
is no such child. The threads pass the global `hWndMain` as `hWnd`; it is taken to be the
main window (the file under `src/` ends inside `WinMain`, before the assignment). -/
def GetDlgItem (id : Int) : Option Control :=
  if id = 10 then some Control.connect
  else if id = 11 then some Control.start
  else if id = 12 then some Control.stop
  else if id = 20 then some Control.rpm
  else if id = 21 then some Control.state
  else none

/-- The function `UpdateStaticText(hWndMain, id, txt)` of v2 (lines 45-48):
`HWND h = GetDlgItem(hWnd, id); if (h) SetWindowTextA(h, txt);`. -/
def UpdateStaticText (s : St) (id : Int) (txt : String) : St :=
  match GetDlgItem id with
  | some h => emit s (Event.SetText h txt)
  | none => s

/-! ## SDO helpers (identical in both variants) -/

def write_sdo_u8 (env : Env) (s : St) (slave idx sub val : Nat) : Int × St :=
  ec_SDOwrite env s slave idx sub 1 ((val % 256 : Nat) : Int)

def write_sdo_u16 (env : Env) (s : St) (slave idx sub val : Nat) : Int × St :=
  ec_SDOwrite env s slave idx sub 2 ((val % 65536 : Nat) : Int)

def write_sdo_s32 (env : Env) (s : St) (slave idx sub : Nat) (val : Int) : Int × St :=
  ec_SDOwrite env s slave idx sub 4 (toS32 val)

def read_sdo_s32 (env : Env) (s : St) (slave idx sub : Nat) (out : Int) : Int × Int × St :=
  ec_SDOread env s slave idx sub 4 out

/-! ## v2: pointer helpers -/

def pdo_controlword_ptr (env : Env) (slave : Nat) : Option Nat :=
  match env.outputs slave with
  | none => none
  | some p => some (p + 0)

def pdo_target_torque_ptr (env : Env) (slave : Nat) : Option Nat :=
  match env.outputs slave with
  | none => none
  | some p => some (p + 2)

def pdo_statusword_ptr (env : Env) (slave : Nat) : Option Nat :=
  match env.inputs slave with
  | none => none
  | some p => some (p + 0)

def pdo_actual_velocity_ptr (env : Env) (slave : Nat) : Option Nat :=
  match env.inputs slave with
  | none => none
  | some p => some (p + 2)

/-! ## v2: the thread `RunLoop` -/

/-- The text `sprintf_s(txt, "RPM: %d%s", (int)vel_raw, has_pdo_vel ? " (pdo)" : " (sdo)")`. -/
def rpmText (vel_raw : Int) (has_pdo_vel : Bool) : String :=
  "RPM: " ++ toString vel_raw ++ (if has_pdo_vel then " (pdo)" else " (sdo)")

/-- Lines 157-169 of v2: mode of operation, then shutdown, switch on, enable operation. -/
def enable_v2 (env : Env) (s : St) : St :=
  let s := (write_sdo_u8 env s DRIVE_SLAVE IDX_MODE_OF_OPERATION 0 10).2
  let s := Sleep s 20
  let s := (write_sdo_u16 env s DRIVE_SLAVE IDX_CONTROLWORD 0 CW_SHUTDOWN).2
  let s := Sleep s 50
  let s := (write_sdo_u16 env s DRIVE_SLAVE IDX_CONTROLWORD 0 CW_SWITCH_ON).2
  let s := Sleep s 50
  let s := (write_sdo_u16 env s DRIVE_SLAVE IDX_CONTROLWORD 0 CW_ENABLE_OPERATION).2
  Sleep s 100

/-- Lines 179-189 of v2: write the outputs, directly or through SDO. -/
def outputs_v2 (env : Env) (s : St) : St :=
  match pdo_controlword_ptr env DRIVE_SLAVE, pdo_target_torque_ptr env DRIVE_SLAVE with
  | some cw, some tt => poke16 (poke16 s cw CW_ENABLE_OPERATION) tt (toU16 torque_set_v2)
  | _, _ =>
    let s := (write_sdo_u16 env s DRIVE_SLAVE IDX_CONTROLWORD 0 CW_ENABLE_OPERATION).2
    (write_sdo_s32 env s DRIVE_SLAVE IDX_TARGET_TORQUE 0 torque_set_v2).2

/-- Lines 191-204 of v2: read the velocity, from the image when the input pointer is not
null and through SDO otherwise. Returns `has_pdo_vel`, `vel_raw` and the state. -/
def read_velocity_v2 (env : Env) (s : St) : Bool × Int × St :=
  match pdo_actual_velocity_ptr env DRIVE_SLAVE with
  | some pdo_vel => (true, peek32 s pdo_vel)
  | none =>
    let q := read_sdo_s32 env s DRIVE_SLAVE IDX_ACTUAL_VELOCITY 0 0
    (false, q.2.1,
      if q.1 ≤ 0 then UpdateStaticText q.2.2 env.hStaticRPM "RPM: (no velocity)" else q.2.2)

/-- Lines 191-208 of v2: read the velocity and display it. -/
def velocity_v2 (env : Env) (s : St) : St :=
  let r := read_velocity_v2 env s
  if r.1 || r.2.1 ≠ 0 then UpdateStaticText r.2.2 env.hStaticRPM (rpmText r.2.1 r.1) else r.2.2

/-- Body of the `while (run_flag)` loop of v2 (lines 175-210). -/
def cycle_v2 (env : Env) (s : St) : St :=
  let s := ec_send_processdata env s
  let s := (ec_receive_processdata env s).2
  let s := outputs_v2 env s
  let s := velocity_v2 env s
  Sleep s 50

/-- The loop `while (run_flag) { ... }` of v2, followed for at most `fuel` evaluations of
its condition. Returns the state reached and whether the loop has been left. -/
def loop_v2 (env : Env) : Nat → St → St × Bool
  | 0, s => (s, false)
  | fuel + 1, s =>
    if env.run_flag s.polls then loop_v2 env fuel (cycle_v2 env { s with polls := s.polls + 1 })
    else ({ s with polls := s.polls + 1 }, true)

/-- Lines 213-234 of v2: what `RunLoop` does once the loop is left. -/
def stop_v2 (env : Env) (s : St) : St :=
  let s := ec_send_processdata env s
  let s := (ec_receive_processdata env s).2
  let s := match pdo_target_torque_ptr env DRIVE_SLAVE with
    | some tt => poke16 s tt (toU16 0)
    | none => (write_sdo_s32 env s DRIVE_SLAVE IDX_TARGET_TORQUE 0 0).2
  let s := (write_sdo_u16 env s DRIVE_SLAVE IDX_CONTROLWORD 0 CW_QUICK_STOP).2
  let s := Sleep s 50
  let q := read_sdo_s32 env s DRIVE_SLAVE IDX_ACTUAL_VELOCITY 0 0
  if q.1 > 0 then UpdateStaticText q.2.2 env.hStaticRPM ("Final RPM: " ++ toString q.2.1)
  else UpdateStaticText q.2.2 env.hStaticRPM "Stopped - final RPM unknown"

/-- The thread `RunLoop` of v2, followed for at most `fuel` evaluations of the loop
condition. Returns the state reached and the exit code once the thread has returned
(`none` while it is still in the loop). -/
def RunLoop (env : Env) (fuel : Nat) (s : St) : St × Option Nat :=
  let l := loop_v2 env fuel (enable_v2 env s)
  if l.2 then (stop_v2 env l.1, some 0) else (l.1, none)

/-! ## v1: the thread `EtherCATThread` -/

/-- Lines 108-148 of v1: bring the bus up. Returns `false` on the three paths that
leave the thread with `return 1`. -/
def connect_v1 (env : Env) (s : St) : Bool × St :=
  let ifname := if env.ifname = "" then "eth0" else env.ifname
  let s := emit s (Event.ec_init ifname)
  if env.ec_init = 0 then
    let s := SetRPMText s ("ec_init on interface '" ++ ifname ++
      "' failed. Is interface name correct and EtherCAT cable connected?")
    (false, { s with run_flag := false })
  else
    let s := emit s Event.ec_config_init
    if env.ec_config_init ≤ 0 then
      let s := SetRPMText s "No slaves found or config init failed"
      let s := emit s Event.ec_close
      (false, { s with run_flag := false })
    else
      let s := SetRPMText s ("Found " ++ toString env.ec_slavecount ++ " slaves")
      let s := emit s Event.ec_config_map
      let s := emit s Event.ec_configdc
      let s := emit s (Event.ec_statecheck 0 EC_STATE_SAFE_OP)
      let s := emit s (Event.ec_writestate DRIVE_SLAVE)
      let s := emit s (Event.ec_statecheck DRIVE_SLAVE EC_STATE_OPERATIONAL)
      if env.slave_state ≠ EC_STATE_OPERATIONAL then
        let s := SetRPMText s "Failed to reach OPERATIONAL state"
        let s := emit s Event.ec_close
        (false, { s with run_flag := false })
      else
        (true, s)

/-- Lines 150-174 of v1: mode of operation, the three control words, the status text. -/
def enable_v1 (env : Env) (s : St) : St :=
  let s := SetRPMText s "Operational - configuring drive via SDOs..."
  let r := write_sdo_u8 env s DRIVE_SLAVE IDX_MODE_OF_OPERATION 0 10
  let s := if r.1 ≤ 0 then SetRPMText r.2 "Failed to write Mode of Operation (0x6060)" else r.2
  let s := Sleep s 50
  let s := (write_sdo_u16 env s DRIVE_SLAVE IDX_CONTROLWORD 0 CW_SHUTDOWN).2
  let s := Sleep s 100
  let s := (write_sdo_u16 env s DRIVE_SLAVE IDX_CONTROLWORD 0 CW_SWITCH_ON).2
  let s := Sleep s 100
  let s := (write_sdo_u16 env s DRIVE_SLAVE IDX_CONTROLWORD 0 CW_ENABLE_OPERATION).2
  let s := Sleep s 200
  SetRPMText s "Drive enabled - applying torque setpoint..."

/-- Body of the `while (run_flag)` loop of v1 (lines 180-194). -/
def cycle_v1 (env : Env) (s : St) : St :=
  let s := (write_sdo_s32 env s DRIVE_SLAVE IDX_TARGET_TORQUE 0 torque_set_v1).2
  let q := read_sdo_s32 env s DRIVE_SLAVE IDX_ACTUAL_VELOCITY 0 0
  let s := if q.1 > 0 then SetRPMText q.2.2 ("RPM: " ++ toString q.2.1 ++ " (raw)")
    else SetRPMText q.2.2 "Could not read actual velocity (0x606C)"
  Sleep s 100

/-- The loop `while (run_flag) { ... }` of v1, followed for at most `fuel` evaluations of
its condition. Returns the state reached and whether the loop has been left. -/
def loop_v1 (env : Env) : Nat → St → St × Bool
  | 0, s => (s, false)
  | fuel + 1, s =>
    if env.run_flag s.polls then loop_v1 env fuel (cycle_v1 env { s with polls := s.polls + 1 })
    else ({ s with polls := s.polls + 1 }, true)

/-- Lines 197-216 of v1: what `EtherCATThread` does once the loop is left. -/
def stop_v1 (env : Env) (s : St) : St :=
  let s := (write_sdo_s32 env s DRIVE_SLAVE IDX_TARGET_TORQUE 0 0).2
  let s := (write_sdo_u16 env s DRIVE_SLAVE IDX_CONTROLWORD 0 CW_QUICK_STOP).2
  let s := Sleep s 100
  let s := (write_sdo_u16 env s DRIVE_SLAVE IDX_CONTROLWORD 0 CW_SHUTDOWN).2
  let q := read_sdo_s32 env s DRIVE_SLAVE IDX_ACTUAL_VELOCITY 0 0
  let s := if q.1 > 0 then SetRPMText q.2.2 ("Final RPM: " ++ toString q.2.1 ++ " (raw)")
    else SetRPMText q.2.2 "Stopped - final RPM unknown"
  emit s Event.ec_close

/-- The thread `EtherCATThread` of v1, followed for at most `fuel` evaluations of the loop
condition. Returns the state reached and the exit code once the thread has returned
(`none` while it is still in the loop). -/
def EtherCATThread_v1 (env : Env) (fuel : Nat) (s : St) : St × Option Nat :=
  let c := connect_v1 env s
  if c.1 then
    let l := loop_v1 env fuel (enable_v1 env c.2)
    if l.2 then (stop_v1 env l.1, some 0) else (l.1, none)
  else (c.2, some 1)

/-! ## Classifying events -/

/-- Calls of `ec_send_processdata`. -/
def isSend : Event → Bool
  | Event.send_processdata _ => true
  | _ => false

/-- Process-data calls. -/
def isPD : Event → Bool
  | Event.send_processdata _ => true
  | Event.receive_processdata => true
  | _ => false

/-- Parameter-channel (SDO) calls. -/
def isSDO : Event → Bool
  | Event.SDOwrite _ _ _ _ _ => true
  | Event.SDOread _ _ _ _ => true
  | _ => false

/-- The control word an event commands to the drive, when it commands one: an SDO write
to object 0x6040, or a store through the control-word pointer `cw`. -/
def controlWordOf (cw : Option Nat) : Event → Option Int
  | Event.SDOwrite _ idx _ _ val => if idx = IDX_CONTROLWORD then some val else none
  | Event.store16 a w => if cw = some a then some (w : Int) else none
  | _ => none

/-- Value of an `int16_t` with bit pattern `w`. -/
def toS16 (w : Nat) : Int :=
  if w % 65536 < 32768 then (w % 65536 : Nat) else (w % 65536 : Nat) - 65536

/-- The target torque an event writes, when it writes one: an SDO write to object 0x6071,
or a store through the target-torque pointer `tt`. -/
def torqueOf (tt : Option Nat) : Event → Option Int
  | Event.SDOwrite _ idx _ _ val => if idx = IDX_TARGET_TORQUE then some val else none
  | Event.store16 a w => if tt = some a then some (toS16 w) else none
  | _ => none

/-- Reads of the status word, object 0x6041, through the parameter channel. -/
def isStatusRead : Event → Bool
  | Event.SDOread _ idx _ _ => idx = IDX_STATUSWORD
  | _ => false

/-- Accesses to the process-data image by the program itself. -/
def isImageAccess : Event → Bool
  | Event.store16 _ _ => true
  | Event.load32 _ => true
  | _ => false

/-- Texts written to the controls. -/
def textOf : Event → Option String
  | Event.SetText _ txt => some txt
  | _ => none

/-- Calls of `SetWindowTextA`. -/
def isText : Event → Bool
  | Event.SetText _ _ => true
  | _ => false

/-- Loads from the process-data image. -/
def isImageLoad : Event → Bool
  | Event.load32 _ => true
  | _ => false

/-- Events of one call `UpdateStaticText(hWndMain, id, txt)`: the call of `SetWindowTextA`
when `GetDlgItem` finds a child window under `id`, nothing otherwise. -/
def textEvents (id : Int) (txt : String) : List Event :=
  match GetDlgItem id with
  | some h => [Event.SetText h txt]
  | none => []

/-- A target torque of 0 reaches the drive: either an SDO write of 0 to object 0x6071, or a
store of 0 through the target-torque pointer `tt` that some later `ec_send_processdata`
follows. -/
def zeroTorqueCommitted (tt : Option Nat) : List Event → Bool
  | [] => false
  | Event.SDOwrite _ idx _ _ val :: es =>
    (idx == IDX_TARGET_TORQUE && val == 0) || zeroTorqueCommitted tt es
  | Event.store16 a w :: es =>
    (tt == some a && w == 0 && es.any isSend) || zeroTorqueCommitted tt es
  | _ :: es => zeroTorqueCommitted tt es

/-- Every `ec_send_processdata` of the list transmits `bytes` at the drive's output pointer. -/
def everySendCarries (bytes : List Nat) (ev : List Event) : Bool :=
  ev.all fun e =>
    match e with
    | Event.send_processdata out => out == some bytes
    | _ => true

/-- The clamp of the specification (§4.5 step 1, §8): a setpoint above the ceiling is
replaced by the ceiling. Nothing in the sources computes it. -/
def spec_clamp (setpoint ceiling : Int) : Int := min setpoint ceiling

/-! ## Concrete worlds -/

/-- A bus on which every call succeeds: both process-data pointers are null, every SDO
read delivers 0, and the stop request is already there at the first look. The two static
controls have the window handles 0x000304B2 and 0x000304B4. -/
def quietEnv : Env where
  run_flag := fun _ => false
  SDOwrite := fun _ => 1
  SDOread := fun _ => (1, some 0)
  receive := fun _ => (1, [])
  outputs := fun _ => none
  inputs := fun _ => none
  ifname := "eth0"
  ec_init := 1
  ec_config_init := 1
  ec_slavecount := 1
  slave_state := EC_STATE_OPERATIONAL
  hStaticRPM := 0x000304B2
  hStaticState := 0x000304B4

/-- As `quietEnv`, with the drive's outputs mapped at offset 0 of the image and its inputs
at offset 16 (status word 0x0237, velocity 16), and one running cycle before the stop
request is seen. -/
def mappedEnv : Env :=
  { quietEnv with
    run_flag := fun k => decide (k = 0)
    outputs := fun _ => some 0
    inputs := fun _ => some 16
    receive := fun _ => (1, [0x37, 0x02, 0x10, 0x00, 0x00, 0x00]) }

/-- A bus that comes up but on which every SDO call fails (work counter 0, buffer
untouched); null process-data pointers; one running cycle before the stop request. -/
def deafEnv : Env :=
  { quietEnv with
    run_flag := fun k => decide (k = 0)
    SDOwrite := fun _ => 0
    SDOread := fun _ => (0, none) }

/-- A drive that stays in Fault: every read of the status word (object 0x6041) is answered
with 0x0008, the CiA402 pattern of Fault, and the status word in the input block (input
offset 0) is 0x0008 as well. Process data mapped as in `mappedEnv`. -/
def faultEnv : Env :=
  { mappedEnv with
    SDOread := fun tr =>
      match tr.getLast? with
      | some (Event.SDOread _ idx _ _) => if idx = IDX_STATUSWORD then (1, some 8) else (1, some 0)
      | _ => (1, some 0)
    receive := fun _ => (1, [0x08, 0x00, 0x00, 0x00, 0x00, 0x00]) }

/-- A thread about to start: no event yet, the image zeroed, `run_flag` set by the GUI. -/
def idle : St where
  trace := []
  polls := 0
  ec_IOmap := fun _ => 0
  run_flag := true

/-- Events that neither read the status word (object 0x6041) nor command the fault-reset
control word (0x0080). -/
def noStatusNoReset (e : Event) : Prop :=
  isStatusRead e = false ∧ ∀ cw, controlWordOf cw e ≠ some (CW_FAULT_RESET : Int)

/-! ## v2: the thread `EtherCATThread` (connect) -/

/-- Lines 97-138 of v2: bring the bus up. Returns `false` on the three paths that leave
the thread with `return 1`. -/
def connect_v2 (env : Env) (s : St) : Bool × St :=
  let s := emit s (Event.ec_init env.ifname)
  if env.ec_init = 0 then
    let s := UpdateStaticText s env.hStaticState
      ("ec_init('" ++ env.ifname ++ "') failed. Check interface name and cable.")
    (false, { s with connected_flag := false, run_flag := false })
  else
    let s := emit s Event.ec_config_init
    if env.ec_config_init ≤ 0 then
      let s := UpdateStaticText s env.hStaticState "No slaves found or ec_config_init failed"
      let s := emit s Event.ec_close
      (false, { s with connected_flag := false, run_flag := false })
    else
      let s := UpdateStaticText s env.hStaticState
        ("Found " ++ toString env.ec_slavecount ++ " slaves")
      let s := emit s Event.ec_config_map
      let s := emit s Event.ec_configdc
      let s := emit s (Event.ec_statecheck 0 EC_STATE_SAFE_OP)
      let s := emit s (Event.ec_writestate 0)
      let s := emit s (Event.ec_statecheck 0 EC_STATE_OPERATIONAL)
      if env.slave_state ≠ EC_STATE_OPERATIONAL then
        let s := UpdateStaticText s env.hStaticState "Drive failed to reach OPERATIONAL state"
        let s := emit s Event.ec_close
        (false, { s with connected_flag := false, run_flag := false })
      else
        let s := { s with connected_flag := true }
        (true, UpdateStaticText s env.hStaticState "Connected. Ready (press Start)")

/-- The loop `while (connected_flag) { Sleep(100); }` of v2, followed for at most `fuel`
evaluations of its condition. Returns the state reached and whether the loop has been
left. -/
def wait_v2 (env : Env) : Nat → St → St × Bool
  | 0, s => (s, false)
  | fuel + 1, s =>
    if env.connected_flag s.waits then wait_v2 env fuel (Sleep { s with waits := s.waits + 1 } 100)
    else ({ s with waits := s.waits + 1 }, true)

/-- The thread `EtherCATThread` of v2, followed for at most `fuel` evaluations of the
condition of its loop. Returns the state reached and the exit code once the thread has
returned (`none` while it is still in the loop). -/
def EtherCATThread_v2 (env : Env) (fuel : Nat) (s : St) : St × Option Nat :=
  let c := connect_v2 env s
  if c.1 then
    let l := wait_v2 env fuel c.2
    if l.2 then (UpdateStaticText (emit l.1 Event.ec_close) env.hStaticState "Disconnected", some 0)
    else (l.1, none)
  else (c.2, some 1)

/-! ## The window procedures -/

/-- Thread procedures handed to `CreateThread`. -/
inductive ThreadProc where
  | EtherCATThread
  | RunLoop
  deriving DecidableEq, Repr

/-- What a window procedure does besides updating its globals. -/
inductive GuiEvent where
  /-- The child windows made on `WM_CREATE`. -/
  | CreateControls
  | CreateThread (proc : ThreadProc)
  | SetText (ctl : Control) (txt : String)
  | WaitForSingleObject (proc : ThreadProc) (ms : Nat)
  | CloseHandle (proc : ThreadProc)
  | DestroyWindow
  | PostQuitMessage
  deriving DecidableEq, Repr

/-- Window messages, `WM_COMMAND` with the low word of `wParam`. -/
inductive Msg where
  | WM_CREATE
  | WM_COMMAND (id : Nat)
  | WM_CLOSE
  | WM_DESTROY
  /-- Any other message: handed to `DefWindowProc`. -/
  | other
  deriving DecidableEq, Repr

/-- The globals of the SOEM variants the window procedure works on: the two flags shared
with the threads, whether the two thread handles are non-null, and what has been done. -/
structure Gui where
  connected_flag : Bool
  run_flag : Bool
  hThread : Bool
  hRunThread : Bool
  log : List GuiEvent
  deriving DecidableEq, Repr

/-- Append one action. -/
def Gui.emit (g : Gui) (e : GuiEvent) : Gui := { g with log := g.log ++ [e] }

/-- The function `UpdateStaticText(hwnd, id, txt)` of v2 as the window procedure calls it. -/
def Gui.UpdateStaticText (g : Gui) (id : Int) (txt : String) : Gui :=
  match GetDlgItem id with
  | some h => g.emit (GuiEvent.SetText h txt)
  | none => g

/-- The function `WndProc` of v1; `created` tells whether `CreateThread` returns a handle.
v1 has no `connected_flag` and no `hRunThread`: the fields are left alone. -/
def WndProc_v1 (created : Bool) (g : Gui) : Msg → Gui
  | Msg.WM_CREATE => g.emit GuiEvent.CreateControls
  | Msg.WM_COMMAND id =>
    if id = 1 then
      if !g.run_flag then
        { (g.emit (GuiEvent.CreateThread ThreadProc.EtherCATThread)) with
          run_flag := true, hThread := created }
      else g
    else if id = 2 then
      if g.run_flag then
        let g := { g with run_flag := false }
        if g.hThread then
          let g := g.emit (GuiEvent.WaitForSingleObject ThreadProc.EtherCATThread 2000)
          let g := g.emit (GuiEvent.CloseHandle ThreadProc.EtherCATThread)
          { g with hThread := false }
        else g
      else g
    else g
  | Msg.WM_DESTROY => { (g.emit GuiEvent.PostQuitMessage) with run_flag := false }
  | _ => g

/-- The function `WndProc` of v2; `created` tells whether `CreateThread` returns a handle. -/
def WndProc_v2 (created : Bool) (g : Gui) : Msg → Gui
  | Msg.WM_CREATE => g.emit GuiEvent.CreateControls
  | Msg.WM_COMMAND id =>
    if id = 10 then
      if !g.connected_flag then
        let g := { g with connected_flag := false }
        let g := { (g.emit (GuiEvent.CreateThread ThreadProc.EtherCATThread)) with
          hThread := created }
        if g.hThread then g.UpdateStaticText 21 "Connecting..." else g
      else
        let g := { g with connected_flag := false }
        g.UpdateStaticText 21 "Disconnecting..."
    else if id = 11 then
      if g.connected_flag && !g.run_flag then
        let g := { g with run_flag := true }
        let g := { (g.emit (GuiEvent.CreateThread ThreadProc.RunLoop)) with
          hRunThread := created }
        g.UpdateStaticText 21 "Running..."
      else g
    else if id = 12 then
      if g.run_flag then
        let g := { g with run_flag := false }
        let g :=
          if g.hRunThread then
            let g := g.emit (GuiEvent.WaitForSingleObject ThreadProc.RunLoop 2000)
            let g := g.emit (GuiEvent.CloseHandle ThreadProc.RunLoop)
            { g with hRunThread := false }
          else g
        g.UpdateStaticText 21 "Stopped (connected)"
      else g
    else g
  | Msg.WM_DESTROY =>
    let g := { g with run_flag := false, connected_flag := false }
    let g :=
      if g.hRunThread then
        (g.emit (GuiEvent.WaitForSingleObject ThreadProc.RunLoop 1000)).emit
          (GuiEvent.CloseHandle ThreadProc.RunLoop)
      else g
    let g :=
      if g.hThread then
        (g.emit (GuiEvent.WaitForSingleObject ThreadProc.EtherCATThread 1000)).emit
          (GuiEvent.CloseHandle ThreadProc.EtherCATThread)
      else g
    g.emit GuiEvent.PostQuitMessage
  | _ => g

/-! ## The simulator (`main_new.c`) -/

def IDC_CONNECT_BUTTON : Nat := 100
def IDC_START_BUTTON : Nat := 101
def IDC_STOP_BUTTON : Nat := 102

/-- The globals of the simulator the window procedure works on, and what has been done;
`Control.state` stands for `hStatusLabel`. -/
structure Sim where
  isConnected : Bool
  inOperation : Bool
  log : List GuiEvent
  /-- The global `currentRPM`. -/
  currentRPM : Int := 0
  /-- The local `counter` of `SimulationThreadProc`. -/
  counter : Nat := 0
  deriving DecidableEq, Repr

/-- Append one action. -/
def Sim.emit (g : Sim) (e : GuiEvent) : Sim := { g with log := g.log ++ [e] }

/-- The function `ConnectToServo` of the simulator. -/
def ConnectToServo : Bool := true

/-- The function `WindowProc` of `main_new.c`. -/
def WindowProc (g : Sim) : Msg → Sim
  | Msg.WM_CREATE => g.emit GuiEvent.CreateControls
  | Msg.WM_COMMAND id =>
    if id = IDC_CONNECT_BUTTON then
      if !g.isConnected then
        if ConnectToServo then
          { g with isConnected := true }.emit
            (GuiEvent.SetText Control.state "Connected to L7NH servo drive - Ready to start")
        else g.emit (GuiEvent.SetText Control.state "Connection failed - Check EtherCAT network")
      else g.emit (GuiEvent.SetText Control.state "Already connected - Click Start to operate")
    else if id = IDC_START_BUTTON then
      if g.isConnected then
        { g with inOperation := true }.emit
          (GuiEvent.SetText Control.state "Servo started in torque mode")
      else g.emit (GuiEvent.SetText Control.state "Not connected - Please connect first")
    else if id = IDC_STOP_BUTTON then
      { g with inOperation := false }.emit (GuiEvent.SetText Control.state "Servo stopped")
    else g
  | Msg.WM_CLOSE =>
    let g := if g.inOperation then { g with inOperation := false } else g
    g.emit GuiEvent.DestroyWindow
  | Msg.WM_DESTROY => g.emit GuiEvent.PostQuitMessage
  | Msg.other => g

/-! ## Notions used by the claims on the channels -/

/-- The five objects the specification names (§6): control word, status word, mode of
operation, target torque, actual velocity. -/
def specObjects : List Nat :=
  [IDX_CONTROLWORD, IDX_STATUSWORD, IDX_MODE_OF_OPERATION, IDX_TARGET_TORQUE, IDX_ACTUAL_VELOCITY]

/-- An SDO request is well addressed when it goes to sub-index 0 of one of the five objects,
is not a write of the actual velocity and not a read of the control word or of the mode
of operation. Events that are no SDO request are well addressed. -/
def sdoAddressOK : Event → Prop
  | Event.SDOwrite _ idx sub _ _ => sub = 0 ∧ idx ∈ specObjects ∧ idx ≠ IDX_ACTUAL_VELOCITY
  | Event.SDOread _ idx sub _ =>
    sub = 0 ∧ idx ∈ specObjects ∧ idx ≠ IDX_CONTROLWORD ∧ idx ≠ IDX_MODE_OF_OPERATION
  | _ => True

/-- The value last written by SDO to `(slave, idx, sub)` in a history, if any. -/
def lastWritten (slave idx sub : Nat) : List Event → Option Int
  | [] => none
  | Event.SDOwrite sl i su _ val :: es =>
    match lastWritten slave idx sub es with
    | some v => some v
    | none => if sl = slave ∧ i = idx ∧ su = sub then some val else none
  | _ :: es => lastWritten slave idx sub es

/-- A fault-free parameter channel over an object store: every write succeeds, and a read of
an address that has been written succeeds and delivers the value last written there. -/
def FaultFree (env : Env) : Prop :=
  ∀ (tr : List Event) (slave idx sub size : Nat),
    (∀ val, 0 < env.SDOwrite (tr ++ [Event.SDOwrite slave idx sub size val])) ∧
    ∀ v, lastWritten slave idx sub tr = some v →
      0 < (env.SDOread (tr ++ [Event.SDOread slave idx sub size])).1 ∧
      (env.SDOread (tr ++ [Event.SDOread slave idx sub size])).2 = some v

/-- An object store as a world: writes return work counter 1; a read returns work counter 1
and the value last written to its address, or work counter 0 when nothing was written. -/
def storeEnv : Env :=
  { quietEnv with
    SDOread := fun tr =>
      match tr.getLast? with
      | some (Event.SDOread slave idx sub _) =>
        match lastWritten slave idx sub tr with
        | some v => (1, some v)
        | none => (0, none)
      | _ => (0, none) }

/-- A channel that fails at every call while the stop request never comes: SDO calls
return work counter 0 and leave the buffer alone, every receive reports a dropped cycle. -/
def stuckEnv : Env :=
  { quietEnv with
    run_flag := fun _ => true
    SDOwrite := fun _ => 0
    SDOread := fun _ => (0, none)
    receive := fun _ => (0, []) }

/-- The window of a SOEM variant before any command: no flag set, no thread. -/
def freshGui : Gui where
  connected_flag := false
  run_flag := false
  hThread := false
  hRunThread := false
  log := []

/-- The simulator before any command. -/
def freshSim : Sim where
  isConnected := false
  inOperation := false
  log := []

/-- A world in which `ec_init` fails. -/
def noBusEnv : Env := { quietEnv with ec_init := 0 }

/-- A null input pointer and an SDO read that fails (work counter 0) after having put 5
into the buffer. -/
def leakyEnv : Env := { quietEnv with SDOread := fun _ => (0, some 5) }

/-! ## The simulator: the simulation thread, and `main.c` -/

/-- The results of the two floating-point expressions of `SimulationThreadProc`, converted
to `int32_t`; they are taken from outside. -/
structure SimFloat where
  /-- Value of `(int32_t)(targetTorque * 50.0 * sin(counter * 0.1))`. -/
  wave : Nat → Int
  /-- Value of `(int32_t)(currentRPM * 0.95)`. -/
  decay : Int → Int

/-- The text `swprintf(rpmText, 32, L"%d RPM", currentRPM)`. -/
def simRpmText (currentRPM : Int) : String := toString currentRPM ++ " RPM"

/-- One turn of the loop `while (TRUE)` of `SimulationThreadProc` in `main_new.c`;
`Control.rpm` stands for `hRPMLabel`. -/
def SimulationThreadProc_turn (fl : SimFloat) (g : Sim) : Sim :=
  let g :=
    if g.inOperation && g.isConnected then
      let g := { g with currentRPM := fl.wave g.counter }
      g.emit (GuiEvent.SetText Control.rpm (simRpmText g.currentRPM))
    else if g.inOperation && !g.isConnected then
      let g := g.emit (GuiEvent.SetText Control.state "Not connected - Cannot start servo")
      { g with inOperation := false }
    else
      let g :=
        if g.currentRPM.natAbs > 10 then { g with currentRPM := fl.decay g.currentRPM }
        else { g with currentRPM := 0 }
      g.emit (GuiEvent.SetText Control.rpm (simRpmText g.currentRPM))
  { g with counter := g.counter + 1 }

/-- The function `WindowProc` of `main.c`: that of `main_new.c` with other texts. -/
def WindowProc_main (g : Sim) : Msg → Sim
  | Msg.WM_CREATE => g.emit GuiEvent.CreateControls
  | Msg.WM_COMMAND id =>
    if id = IDC_CONNECT_BUTTON then
      if !g.isConnected then
        if ConnectToServo then
          { g with isConnected := true }.emit
            (GuiEvent.SetText Control.state
              "L7NH 서본 드라이브에 연결됨 - 시작 버튼을 클릭하세요")
        else g.emit (GuiEvent.SetText Control.state
          "연결 실패 - 이더칵 네트워키를 확인하세요")
      else g.emit (GuiEvent.SetText Control.state
        "이미 연결됨 - 작동을 시작하려면 시작 버튼을 클릭하세요")
    else if id = IDC_START_BUTTON then
      if g.isConnected then
        { g with inOperation := true }.emit
          (GuiEvent.SetText Control.state
            "서본이 통장 모드로 시작됨")
      else g.emit (GuiEvent.SetText Control.state
        "연결되지 않음 - 마지막 연결하세요")
    else if id = IDC_STOP_BUTTON then
      { g with inOperation := false }.emit
        (GuiEvent.SetText Control.state "서본 종료됨")
    else g
  | Msg.WM_CLOSE =>
    let g := if g.inOperation then { g with inOperation := false } else g
    g.emit GuiEvent.DestroyWindow
  | Msg.WM_DESTROY => g.emit GuiEvent.PostQuitMessage
  | Msg.other => g

/-- One turn of the loop `while (TRUE)` of `SimulationThreadProc` in `main.c`. -/
def SimulationThreadProc_turn_main (fl : SimFloat) (g : Sim) : Sim :=
  let g :=
    if g.inOperation && g.isConnected then
      let g := { g with currentRPM := fl.wave g.counter }
      g.emit (GuiEvent.SetText Control.rpm (simRpmText g.currentRPM))
    else if g.inOperation && !g.isConnected then
      let g := g.emit (GuiEvent.SetText Control.state
        "연결되지 않음 - 서본을 시작할 수 없습니다")
      { g with inOperation := false }
    else
      let g :=
        if g.currentRPM.natAbs > 10 then { g with currentRPM := fl.decay g.currentRPM }
        else { g with currentRPM := 0 }
      g.emit (GuiEvent.SetText Control.rpm (simRpmText g.currentRPM))
  { g with counter := g.counter + 1 }

/-- What can happen to the simulator: the window procedure handles a message, or the
simulation thread takes a turn. -/
inductive SimInput where
  | message (m : Msg)
  | turn
  deriving DecidableEq, Repr

/-- One step of `main_new.c`. -/
def simStep (fl : SimFloat) (g : Sim) : SimInput → Sim
  | SimInput.message m => WindowProc g m
  | SimInput.turn => SimulationThreadProc_turn fl g

/-- One step of `main.c`. -/
def simStep_main (fl : SimFloat) (g : Sim) : SimInput → Sim
  | SimInput.message m => WindowProc_main g m
  | SimInput.turn => SimulationThreadProc_turn_main fl g

/-- The simulator `main_new.c` after a sequence of messages and turns. -/
def simRun (fl : SimFloat) (g : Sim) (inputs : List SimInput) : Sim :=
  inputs.foldl (simStep fl) g

/-- The simulator `main.c` after a sequence of messages and turns. -/
def simRun_main (fl : SimFloat) (g : Sim) (inputs : List SimInput) : Sim :=
  inputs.foldl (simStep_main fl) g

/-- A stand-in for the floating-point results: the wave is `50 * counter`, the decay drops
one twentieth, rounding toward zero. -/
def plainFloat : SimFloat where
  wave := fun c => 50 * (c : Int)
  decay := fun r => Int.tdiv (19 * r) 20

/-! ## Traces of the blocks -/

theorem newEvents_of_append {s t : St} {l : List Event} (h : t.trace = s.trace ++ l) :
    newEvents s t = l := by
  simp [newEvents, h]

theorem newEvents_trans {s t u : St} {l₁ l₂ : List Event} (h₁ : t.trace = s.trace ++ l₁)
    (h₂ : u.trace = t.trace ++ l₂) : newEvents s u = l₁ ++ l₂ := by
  simp [newEvents, h₁, h₂]

theorem enable_v2_trace (env : Env) (s : St) :
    (enable_v2 env s).trace = s.trace ++
      [Event.SDOwrite 1 0x6060 0 1 10, Event.Sleep 20,
       Event.SDOwrite 1 0x6040 0 2 6, Event.Sleep 50,
       Event.SDOwrite 1 0x6040 0 2 7, Event.Sleep 50,
       Event.SDOwrite 1 0x6040 0 2 15, Event.Sleep 100] := by
  simp [enable_v2, write_sdo_u8, write_sdo_u16, ec_SDOwrite, Sleep, emit, DRIVE_SLAVE,
    IDX_MODE_OF_OPERATION, IDX_CONTROLWORD, CW_SHUTDOWN, CW_SWITCH_ON, CW_ENABLE_OPERATION]

theorem enable_v2_polls (env : Env) (s : St) : (enable_v2 env s).polls = s.polls := by
  simp [enable_v2, write_sdo_u8, write_sdo_u16, ec_SDOwrite, Sleep, emit]

theorem enable_v1_trace (env : Env) (s : St) :
    (enable_v1 env s).trace = s.trace ++
      ([Event.SetText Control.rpm "Operational - configuring drive via SDOs...",
        Event.SDOwrite 1 0x6060 0 1 10] ++
       (if env.SDOwrite (s.trace ++
            [Event.SetText Control.rpm "Operational - configuring drive via SDOs...",
             Event.SDOwrite 1 0x6060 0 1 10]) ≤ 0
        then [Event.SetText Control.rpm "Failed to write Mode of Operation (0x6060)"] else []) ++
       [Event.Sleep 50,
        Event.SDOwrite 1 0x6040 0 2 6, Event.Sleep 100,
        Event.SDOwrite 1 0x6040 0 2 7, Event.Sleep 100,
        Event.SDOwrite 1 0x6040 0 2 15, Event.Sleep 200,
        Event.SetText Control.rpm "Drive enabled - applying torque setpoint..."]) := by
  simp [enable_v1, write_sdo_u8, write_sdo_u16, ec_SDOwrite, Sleep, emit, DRIVE_SLAVE,
    IDX_MODE_OF_OPERATION, IDX_CONTROLWORD, CW_SHUTDOWN, CW_SWITCH_ON, CW_ENABLE_OPERATION,
    SetRPMText]
  split_ifs <;> simp

theorem enable_v1_polls (env : Env) (s : St) : (enable_v1 env s).polls = s.polls := by
  simp [enable_v1, write_sdo_u8, write_sdo_u16, ec_SDOwrite, Sleep, emit, SetRPMText]
  split_ifs <;> simp

theorem cycle_v1_trace (env : Env) (s : St) :
    (cycle_v1 env s).trace = s.trace ++
      [Event.SDOwrite 1 0x6071 0 4 1000, Event.SDOread 1 0x606C 0 4,
       Event.SetText Control.rpm
         (if (env.SDOread (s.trace ++
              [Event.SDOwrite 1 0x6071 0 4 1000, Event.SDOread 1 0x606C 0 4])).1 > 0
          then "RPM: " ++ toString (((env.SDOread (s.trace ++
              [Event.SDOwrite 1 0x6071 0 4 1000, Event.SDOread 1 0x606C 0 4])).2.map toS32).getD 0)
              ++ " (raw)"
          else "Could not read actual velocity (0x606C)"),
       Event.Sleep 100] := by
  simp [cycle_v1, write_sdo_s32, read_sdo_s32, ec_SDOwrite, ec_SDOread, Sleep, emit, DRIVE_SLAVE,
    IDX_TARGET_TORQUE, IDX_ACTUAL_VELOCITY, SetRPMText, torque_set_v1, toS32]
  split_ifs <;> simp

theorem cycle_v1_polls (env : Env) (s : St) : (cycle_v1 env s).polls = s.polls := by
  simp [cycle_v1, write_sdo_s32, read_sdo_s32, ec_SDOwrite, ec_SDOread, Sleep, emit, SetRPMText]
  split_ifs <;> simp

theorem stop_v1_trace (env : Env) (s : St) :
    ∃ txt, (stop_v1 env s).trace = s.trace ++
      [Event.SDOwrite 1 0x6071 0 4 0, Event.SDOwrite 1 0x6040 0 2 2, Event.Sleep 100,
       Event.SDOwrite 1 0x6040 0 2 6, Event.SDOread 1 0x606C 0 4,
       Event.SetText Control.rpm txt, Event.ec_close] := by
  simp [stop_v1, write_sdo_s32, write_sdo_u16, read_sdo_s32, ec_SDOwrite, ec_SDOread, Sleep, emit,
    DRIVE_SLAVE, IDX_TARGET_TORQUE, IDX_ACTUAL_VELOCITY, IDX_CONTROLWORD, CW_QUICK_STOP,
    CW_SHUTDOWN, SetRPMText, toS32]
  split_ifs <;> simp

theorem cycle_v2_polls (env : Env) (s : St) : (cycle_v2 env s).polls = s.polls := by
  cases hr : GetDlgItem env.hStaticRPM <;> cases ho : env.outputs 1 <;> cases hi : env.inputs 1 <;>
    simp [cycle_v2, velocity_v2, read_velocity_v2, outputs_v2, ec_send_processdata, ec_receive_processdata,
      pdo_controlword_ptr, pdo_target_torque_ptr, pdo_actual_velocity_ptr, ho, hi, poke16, peek32,
      emit, Sleep, UpdateStaticText, hr, write_sdo_u16, write_sdo_s32, read_sdo_s32, ec_SDOwrite,
      ec_SDOread, DRIVE_SLAVE] <;>
    (try split_ifs) <;> (try simp)


theorem cycle_v2_extends (env : Env) (s : St) : ∃ l, (cycle_v2 env s).trace = s.trace ++ l := by
  cases hr : GetDlgItem env.hStaticRPM <;> cases ho : env.outputs 1 <;> cases hi : env.inputs 1 <;>
    simp [cycle_v2, velocity_v2, read_velocity_v2, outputs_v2, ec_send_processdata, ec_receive_processdata,
      pdo_controlword_ptr, pdo_target_torque_ptr, pdo_actual_velocity_ptr, ho, hi, poke16, peek32,
      emit, Sleep, UpdateStaticText, hr, write_sdo_u16, write_sdo_s32, read_sdo_s32, ec_SDOwrite,
      ec_SDOread, DRIVE_SLAVE] <;>
    (try split_ifs) <;> simp

/-! ## The loops -/

theorem loop_v2_extends (env : Env) :
    ∀ fuel s, ∃ l, (loop_v2 env fuel s).1.trace = s.trace ++ l := by
  intro fuel
  induction fuel with
  | zero => intro s; exact ⟨[], by simp [loop_v2]⟩
  | succ n ih =>
    intro s
    simp only [loop_v2]
    split_ifs with hf
    · obtain ⟨l₂, h₂⟩ := ih (cycle_v2 env { s with polls := s.polls + 1 })
      obtain ⟨l₁, h₁⟩ := cycle_v2_extends env { s with polls := s.polls + 1 }
      exact ⟨l₁ ++ l₂, by rw [h₂, h₁, List.append_assoc]⟩
    · exact ⟨[], by simp⟩

/-- Whatever holds of every event of every cycle holds of every event of the loop, however
long it is followed. -/
theorem loop_v2_forall (env : Env) (P : Event → Prop)
    (hP : ∀ s, ∀ e ∈ newEvents s (cycle_v2 env s), P e) :
    ∀ fuel s, ∀ e ∈ newEvents s (loop_v2 env fuel s).1, P e := by
  intro fuel
  induction fuel with
  | zero => intro s; simp [loop_v2, newEvents]
  | succ n ih =>
    intro s
    simp only [loop_v2]
    split_ifs with hf
    · obtain ⟨l₂, h₂⟩ := loop_v2_extends env n (cycle_v2 env { s with polls := s.polls + 1 })
      obtain ⟨l₁, h₁⟩ := cycle_v2_extends env { s with polls := s.polls + 1 }
      have e₁ : newEvents { s with polls := s.polls + 1 }
          (cycle_v2 env { s with polls := s.polls + 1 }) = l₁ := newEvents_of_append h₁
      have e₂ := newEvents_of_append h₂
      have e₃ : newEvents s (loop_v2 env n (cycle_v2 env { s with polls := s.polls + 1 })).1
          = l₁ ++ l₂ :=
        newEvents_trans (s := s) (t := cycle_v2 env { s with polls := s.polls + 1 }) h₁ h₂
      intro e he
      rw [e₃, List.mem_append] at he
      rcases he with he | he
      · exact hP _ e (by rw [e₁]; exact he)
      · exact ih _ e (by rw [e₂]; exact he)
    · simp [newEvents]

/-- The loop of v2 is left once `run_flag` reads false: with `k` the index of such a
reading, `k + 1` evaluations of the condition are enough. -/
theorem loop_v2_returns (env : Env) :
    ∀ k s, env.run_flag (s.polls + k) = false → (loop_v2 env (k + 1) s).2 = true := by
  intro k
  induction k with
  | zero =>
    intro s h
    simp only [Nat.add_zero] at h
    simp [loop_v2, h]
  | succ n ih =>
    intro s h
    by_cases hf : env.run_flag s.polls = true
    · have h' : env.run_flag ((cycle_v2 env { s with polls := s.polls + 1 }).polls + n) = false := by
        rw [cycle_v2_polls]
        simpa [Nat.add_assoc, Nat.add_comm 1 n] using h
      rw [loop_v2, if_pos hf]
      exact ih _ h'
    · rw [loop_v2, if_neg hf]

theorem cycle_v1_extends (env : Env) (s : St) : ∃ l, (cycle_v1 env s).trace = s.trace ++ l :=
  ⟨_, cycle_v1_trace env s⟩

theorem loop_v1_extends (env : Env) :
    ∀ fuel s, ∃ l, (loop_v1 env fuel s).1.trace = s.trace ++ l := by
  intro fuel
  induction fuel with
  | zero => intro s; exact ⟨[], by simp [loop_v1]⟩
  | succ n ih =>
    intro s
    simp only [loop_v1]
    split_ifs with hf
    · obtain ⟨l₂, h₂⟩ := ih (cycle_v1 env { s with polls := s.polls + 1 })
      obtain ⟨l₁, h₁⟩ := cycle_v1_extends env { s with polls := s.polls + 1 }
      exact ⟨l₁ ++ l₂, by rw [h₂, h₁, List.append_assoc]⟩
    · exact ⟨[], by simp⟩

/-- Whatever holds of every event of every cycle holds of every event of the loop, however
long it is followed. -/
theorem loop_v1_forall (env : Env) (P : Event → Prop)
    (hP : ∀ s, ∀ e ∈ newEvents s (cycle_v1 env s), P e) :
    ∀ fuel s, ∀ e ∈ newEvents s (loop_v1 env fuel s).1, P e := by
  intro fuel
  induction fuel with
  | zero => intro s; simp [loop_v1, newEvents]
  | succ n ih =>
    intro s
    simp only [loop_v1]
    split_ifs with hf
    · obtain ⟨l₂, h₂⟩ := loop_v1_extends env n (cycle_v1 env { s with polls := s.polls + 1 })
      obtain ⟨l₁, h₁⟩ := cycle_v1_extends env { s with polls := s.polls + 1 }
      have e₁ : newEvents { s with polls := s.polls + 1 }
          (cycle_v1 env { s with polls := s.polls + 1 }) = l₁ := newEvents_of_append h₁
      have e₂ := newEvents_of_append h₂
      have e₃ : newEvents s (loop_v1 env n (cycle_v1 env { s with polls := s.polls + 1 })).1
          = l₁ ++ l₂ :=
        newEvents_trans (s := s) (t := cycle_v1 env { s with polls := s.polls + 1 }) h₁ h₂
      intro e he
      rw [e₃, List.mem_append] at he
      rcases he with he | he
      · exact hP _ e (by rw [e₁]; exact he)
      · exact ih _ e (by rw [e₂]; exact he)
    · simp [newEvents]

/-- The loop of v1 is left once `run_flag` reads false. -/
theorem loop_v1_returns (env : Env) :
    ∀ k s, env.run_flag (s.polls + k) = false → (loop_v1 env (k + 1) s).2 = true := by
  intro k
  induction k with
  | zero =>
    intro s h
    simp only [Nat.add_zero] at h
    simp [loop_v1, h]
  | succ n ih =>
    intro s h
    by_cases hf : env.run_flag s.polls = true
    · have h' : env.run_flag ((cycle_v1 env { s with polls := s.polls + 1 }).polls + n) = false := by
        rw [cycle_v1_polls]
        simpa [Nat.add_assoc, Nat.add_comm 1 n] using h
      rw [loop_v1, if_pos hf]
      exact ih _ h'
    · rw [loop_v1, if_neg hf]

/-! ## The threads -/

theorem stop_v2_extends (env : Env) (s : St) : ∃ l, (stop_v2 env s).trace = s.trace ++ l := by
  cases hr : GetDlgItem env.hStaticRPM <;> cases ho : env.outputs 1 <;> cases hi : env.inputs 1 <;>
    simp [stop_v2, ec_send_processdata, ec_receive_processdata, pdo_target_torque_ptr, ho, hi,
      poke16, emit, Sleep, UpdateStaticText, hr, write_sdo_u16, write_sdo_s32, read_sdo_s32,
      ec_SDOwrite, ec_SDOread, DRIVE_SLAVE] <;>
    (try split_ifs) <;> simp

theorem connect_v1_extends (env : Env) (s : St) :
    ∃ l, (connect_v1 env s).2.trace = s.trace ++ l := by
  simp only [connect_v1]
  split_ifs <;> simp [emit, SetRPMText]

theorem connect_v1_polls (env : Env) (s : St) : (connect_v1 env s).2.polls = s.polls := by
  simp only [connect_v1]
  split_ifs <;> simp [emit, SetRPMText]

/-- The bus bring-up of v1 issues no SDO call and touches no process data. -/
theorem connect_v1_events (env : Env) (s : St) :
    ∀ e ∈ newEvents s (connect_v1 env s).2,
      isSDO e = false ∧ isPD e = false ∧ isImageAccess e = false := by
  simp only [connect_v1, newEvents]
  split_ifs <;> simp [emit, SetRPMText, isSDO, isPD, isImageAccess]

theorem enable_v2_extends (env : Env) (s : St) :
    ∃ l, (enable_v2 env s).trace = s.trace ++ l := ⟨_, enable_v2_trace env s⟩

theorem enable_v1_extends (env : Env) (s : St) :
    ∃ l, (enable_v1 env s).trace = s.trace ++ l := ⟨_, enable_v1_trace env s⟩

/-- Whatever holds of every event of the three blocks of `RunLoop` holds of every event of
the thread, however long it is followed. -/
theorem RunLoop_forall (env : Env) (P : Event → Prop)
    (he : ∀ s, ∀ e ∈ newEvents s (enable_v2 env s), P e)
    (hc : ∀ s, ∀ e ∈ newEvents s (cycle_v2 env s), P e)
    (hs : ∀ s, ∀ e ∈ newEvents s (stop_v2 env s), P e) :
    ∀ fuel s, ∀ e ∈ newEvents s (RunLoop env fuel s).1, P e := by
  intro fuel s e hmem
  obtain ⟨l₁, h₁⟩ := enable_v2_extends env s
  obtain ⟨l₂, h₂⟩ := loop_v2_extends env fuel (enable_v2 env s)
  obtain ⟨l₃, h₃⟩ := stop_v2_extends env (loop_v2 env fuel (enable_v2 env s)).1
  have t₂ : (loop_v2 env fuel (enable_v2 env s)).1.trace = s.trace ++ (l₁ ++ l₂) := by
    rw [h₂, h₁, List.append_assoc]
  have hl : ∀ e ∈ l₁ ++ l₂, P e := by
    intro e he'
    rcases List.mem_append.1 he' with he' | he'
    · exact he s e (by rw [newEvents_of_append h₁]; exact he')
    · exact loop_v2_forall env P hc fuel _ e (by rw [newEvents_of_append h₂]; exact he')
  simp only [RunLoop] at hmem
  split_ifs at hmem with hl2
  · rw [newEvents_trans t₂ h₃, List.mem_append] at hmem
    rcases hmem with hmem | hmem
    · exact hl e hmem
    · exact hs _ e (by rw [newEvents_of_append h₃]; exact hmem)
  · rw [newEvents_of_append t₂] at hmem
    exact hl e hmem

/-- The thread `RunLoop` returns, with exit code 0, once `run_flag` reads false. -/
theorem RunLoop_returns (env : Env) (k : Nat) (s : St)
    (h : env.run_flag (s.polls + k) = false) :
    (RunLoop env (k + 1) s).2 = some 0 := by
  have h' : env.run_flag ((enable_v2 env s).polls + k) = false := by
    rw [enable_v2_polls]; exact h
  simp [RunLoop, loop_v2_returns env k _ h']

/-- The exit code of `RunLoop` is 0, and a run that has returned ends with the events
of `stop_v2`. -/
theorem RunLoop_exit (env : Env) (fuel : Nat) (s : St) (c : Nat)
    (h : (RunLoop env fuel s).2 = some c) :
    c = 0 ∧ (RunLoop env fuel s).1 = stop_v2 env (loop_v2 env fuel (enable_v2 env s)).1 := by
  simp only [RunLoop] at h ⊢
  split_ifs at h ⊢ with hl
  exact ⟨by simpa using h.symm, rfl⟩

/-- Every run of `RunLoop` starts with the events of the enable sequence. -/
theorem RunLoop_enable_first (env : Env) (fuel : Nat) (s : St) :
    ∃ rest, (RunLoop env fuel s).1.trace = (enable_v2 env s).trace ++ rest := by
  obtain ⟨l₂, h₂⟩ := loop_v2_extends env fuel (enable_v2 env s)
  obtain ⟨l₃, h₃⟩ := stop_v2_extends env (loop_v2 env fuel (enable_v2 env s)).1
  simp only [RunLoop]
  split_ifs
  · exact ⟨l₂ ++ l₃, by rw [h₃, h₂, List.append_assoc]⟩
  · exact ⟨l₂, h₂⟩

/-- When `run_flag` reads true at the first look, `RunLoop` runs a first cycle right after
the enable sequence. -/
theorem RunLoop_first_cycle (env : Env) (fuel : Nat) (s : St)
    (hf : env.run_flag s.polls = true) :
    ∃ rest, (RunLoop env (fuel + 1) s).1.trace =
      (cycle_v2 env { enable_v2 env s with polls := s.polls + 1 }).trace ++ rest := by
  obtain ⟨l₂, h₂⟩ := loop_v2_extends env fuel
    (cycle_v2 env { enable_v2 env s with polls := s.polls + 1 })
  obtain ⟨l₃, h₃⟩ := stop_v2_extends env (loop_v2 env fuel
    (cycle_v2 env { enable_v2 env s with polls := s.polls + 1 })).1
  simp only [RunLoop, loop_v2, enable_v2_polls, if_pos hf]
  split_ifs
  · exact ⟨l₂ ++ l₃, by rw [h₃, h₂, List.append_assoc]⟩
  · exact ⟨l₂, h₂⟩

theorem stop_v1_extends (env : Env) (s : St) : ∃ l, (stop_v1 env s).trace = s.trace ++ l := by
  obtain ⟨txt, h⟩ := stop_v1_trace env s
  exact ⟨_, h⟩

/-- Whatever holds of every event of the four blocks of v1 `EtherCATThread` holds of every
event of the thread, however long it is followed. -/
theorem EtherCATThread_v1_forall (env : Env) (P : Event → Prop)
    (hk : ∀ s, ∀ e ∈ newEvents s (connect_v1 env s).2, P e)
    (he : ∀ s, ∀ e ∈ newEvents s (enable_v1 env s), P e)
    (hc : ∀ s, ∀ e ∈ newEvents s (cycle_v1 env s), P e)
    (hs : ∀ s, ∀ e ∈ newEvents s (stop_v1 env s), P e) :
    ∀ fuel s, ∀ e ∈ newEvents s (EtherCATThread_v1 env fuel s).1, P e := by
  intro fuel s e hmem
  obtain ⟨l₀, h₀⟩ := connect_v1_extends env s
  obtain ⟨l₁, h₁⟩ := enable_v1_extends env (connect_v1 env s).2
  obtain ⟨l₂, h₂⟩ := loop_v1_extends env fuel (enable_v1 env (connect_v1 env s).2)
  obtain ⟨l₃, h₃⟩ := stop_v1_extends env (loop_v1 env fuel (enable_v1 env (connect_v1 env s).2)).1
  have t₂ : (loop_v1 env fuel (enable_v1 env (connect_v1 env s).2)).1.trace
      = s.trace ++ ((l₀ ++ l₁) ++ l₂) := by
    rw [h₂, h₁, h₀]; simp only [List.append_assoc]
  have hl : ∀ e ∈ (l₀ ++ l₁) ++ l₂, P e := by
    intro e he'
    rcases List.mem_append.1 he' with he' | he'
    · rcases List.mem_append.1 he' with he' | he'
      · exact hk s e (by rw [newEvents_of_append h₀]; exact he')
      · exact he _ e (by rw [newEvents_of_append h₁]; exact he')
    · exact loop_v1_forall env P hc fuel _ e (by rw [newEvents_of_append h₂]; exact he')
  simp only [EtherCATThread_v1] at hmem
  split_ifs at hmem with hcon hl2
  · rw [newEvents_trans t₂ h₃, List.mem_append] at hmem
    rcases hmem with hmem | hmem
    · exact hl e hmem
    · exact hs _ e (by rw [newEvents_of_append h₃]; exact hmem)
  · rw [newEvents_of_append t₂] at hmem
    exact hl e hmem
  · exact hk s e hmem

/-- The thread `EtherCATThread` of v1 returns once `run_flag` reads false. -/
theorem EtherCATThread_v1_returns (env : Env) (k : Nat) (s : St)
    (h : env.run_flag (s.polls + k) = false) :
    ∃ c, (EtherCATThread_v1 env (k + 1) s).2 = some c := by
  simp only [EtherCATThread_v1]
  split_ifs with hcon hl
  · exact ⟨0, rfl⟩
  · have h' : env.run_flag ((enable_v1 env (connect_v1 env s).2).polls + k) = false := by
      rw [enable_v1_polls, connect_v1_polls]; exact h
    exact absurd (loop_v1_returns env k _ h') hl
  · exact ⟨1, rfl⟩

/-- The exit code of v1 `EtherCATThread` is 0 exactly when the bus came up, and a run that
has returned with 0 ends with the events of `stop_v1`. -/
theorem EtherCATThread_v1_exit (env : Env) (fuel : Nat) (s : St) (c : Nat)
    (h : (EtherCATThread_v1 env fuel s).2 = some c) :
    (c = 0 ↔ (connect_v1 env s).1 = true) ∧
    (c = 0 → (EtherCATThread_v1 env fuel s).1 =
      stop_v1 env (loop_v1 env fuel (enable_v1 env (connect_v1 env s).2)).1) := by
  simp only [EtherCATThread_v1] at h ⊢
  split_ifs at h ⊢ with hcon hl
  · have hc : c = 0 := by simpa using h.symm
    exact ⟨by simp [hc, hcon], fun _ => rfl⟩
  · have hc : c = 1 := by simpa using h.symm
    exact ⟨by simp [hc, hcon], fun h0 => by omega⟩

/-- When the bus came up, every run of v1 starts with the events of the bring-up followed
by those of the enable sequence. -/
theorem EtherCATThread_v1_enable_first (env : Env) (fuel : Nat) (s : St)
    (hcon : (connect_v1 env s).1 = true) :
    ∃ rest, (EtherCATThread_v1 env fuel s).1.trace =
      (enable_v1 env (connect_v1 env s).2).trace ++ rest := by
  obtain ⟨l₂, h₂⟩ := loop_v1_extends env fuel (enable_v1 env (connect_v1 env s).2)
  obtain ⟨l₃, h₃⟩ := stop_v1_extends env (loop_v1 env fuel (enable_v1 env (connect_v1 env s).2)).1
  simp only [EtherCATThread_v1, if_pos hcon]
  split_ifs
  · exact ⟨l₂ ++ l₃, by rw [h₃, h₂, List.append_assoc]⟩
  · exact ⟨l₂, h₂⟩

/-- When the bus came up and `run_flag` reads true at the first look, v1 runs a first
cycle right after the enable sequence. -/
theorem EtherCATThread_v1_first_cycle (env : Env) (fuel : Nat) (s : St)
    (hcon : (connect_v1 env s).1 = true) (hf : env.run_flag s.polls = true) :
    ∃ rest, (EtherCATThread_v1 env (fuel + 1) s).1.trace =
      (cycle_v1 env { enable_v1 env (connect_v1 env s).2 with polls := s.polls + 1 }).trace
        ++ rest := by
  obtain ⟨l₂, h₂⟩ := loop_v1_extends env fuel
    (cycle_v1 env { enable_v1 env (connect_v1 env s).2 with polls := s.polls + 1 })
  obtain ⟨l₃, h₃⟩ := stop_v1_extends env (loop_v1 env fuel
    (cycle_v1 env { enable_v1 env (connect_v1 env s).2 with polls := s.polls + 1 })).1
  simp only [EtherCATThread_v1, if_pos hcon, loop_v1, enable_v1_polls, connect_v1_polls,
    if_pos hf]
  split_ifs
  · exact ⟨l₂ ++ l₃, by rw [h₃, h₂, List.append_assoc]⟩
  · exact ⟨l₂, h₂⟩

/-! ## Neither thread reads the status word or resets a fault -/

theorem enable_v2_noStatusNoReset (env : Env) (s : St) :
    ∀ e ∈ newEvents s (enable_v2 env s), noStatusNoReset e := by
  rw [newEvents_of_append (enable_v2_trace env s)]
  simp [noStatusNoReset, isStatusRead, controlWordOf, CW_FAULT_RESET, IDX_CONTROLWORD]

theorem cycle_v2_noStatusNoReset (env : Env) (s : St) :
    ∀ e ∈ newEvents s (cycle_v2 env s), noStatusNoReset e := by
  cases hr : GetDlgItem env.hStaticRPM <;> cases ho : env.outputs 1 <;> cases hi : env.inputs 1 <;>
    simp [newEvents, cycle_v2, velocity_v2, read_velocity_v2, outputs_v2, ec_send_processdata,
      ec_receive_processdata, pdo_controlword_ptr, pdo_target_torque_ptr,
      pdo_actual_velocity_ptr, ho, hi, poke16, peek32, emit, Sleep, UpdateStaticText, hr,
      write_sdo_u16, write_sdo_s32, read_sdo_s32, ec_SDOwrite, ec_SDOread, DRIVE_SLAVE,
      IDX_CONTROLWORD, IDX_TARGET_TORQUE, IDX_ACTUAL_VELOCITY, CW_ENABLE_OPERATION,
      torque_set_v2, toS32, toU16] <;>
    (try split_ifs) <;>
    simp [noStatusNoReset, isStatusRead, controlWordOf, CW_FAULT_RESET, IDX_CONTROLWORD,
      IDX_STATUSWORD]

theorem stop_v2_noStatusNoReset (env : Env) (s : St) :
    ∀ e ∈ newEvents s (stop_v2 env s), noStatusNoReset e := by
  cases hr : GetDlgItem env.hStaticRPM <;> cases ho : env.outputs 1 <;> cases hi : env.inputs 1 <;>
    simp [newEvents, stop_v2, ec_send_processdata, ec_receive_processdata,
      pdo_target_torque_ptr, ho, hi, poke16, emit, Sleep, UpdateStaticText, hr, write_sdo_u16,
      write_sdo_s32, read_sdo_s32, ec_SDOwrite, ec_SDOread, DRIVE_SLAVE, IDX_CONTROLWORD,
      IDX_TARGET_TORQUE, IDX_ACTUAL_VELOCITY, CW_QUICK_STOP, toS32, toU16] <;>
    (try split_ifs) <;>
    simp [noStatusNoReset, isStatusRead, controlWordOf, CW_FAULT_RESET, IDX_CONTROLWORD,
      IDX_STATUSWORD]

theorem RunLoop_noStatusNoReset (env : Env) (fuel : Nat) (s : St) :
    ∀ e ∈ newEvents s (RunLoop env fuel s).1, noStatusNoReset e :=
  RunLoop_forall env noStatusNoReset (enable_v2_noStatusNoReset env)
    (cycle_v2_noStatusNoReset env) (stop_v2_noStatusNoReset env) fuel s

theorem connect_v1_noStatusNoReset (env : Env) (s : St) :
    ∀ e ∈ newEvents s (connect_v1 env s).2, noStatusNoReset e := by
  simp only [connect_v1, newEvents]
  split_ifs <;> simp [emit, SetRPMText, noStatusNoReset, isStatusRead, controlWordOf]

theorem enable_v1_noStatusNoReset (env : Env) (s : St) :
    ∀ e ∈ newEvents s (enable_v1 env s), noStatusNoReset e := by
  rw [newEvents_of_append (enable_v1_trace env s)]
  split_ifs <;>
    simp [noStatusNoReset, isStatusRead, controlWordOf, CW_FAULT_RESET, IDX_CONTROLWORD]

theorem cycle_v1_noStatusNoReset (env : Env) (s : St) :
    ∀ e ∈ newEvents s (cycle_v1 env s), noStatusNoReset e := by
  rw [newEvents_of_append (cycle_v1_trace env s)]
  simp [noStatusNoReset, isStatusRead, controlWordOf, CW_FAULT_RESET, IDX_CONTROLWORD,
    IDX_STATUSWORD]

theorem stop_v1_noStatusNoReset (env : Env) (s : St) :
    ∀ e ∈ newEvents s (stop_v1 env s), noStatusNoReset e := by
  obtain ⟨txt, h⟩ := stop_v1_trace env s
  rw [newEvents_of_append h]
  simp [noStatusNoReset, isStatusRead, controlWordOf, CW_FAULT_RESET, IDX_CONTROLWORD,
    IDX_STATUSWORD]

theorem EtherCATThread_v1_noStatusNoReset (env : Env) (fuel : Nat) (s : St) :
    ∀ e ∈ newEvents s (EtherCATThread_v1 env fuel s).1, noStatusNoReset e :=
  EtherCATThread_v1_forall env noStatusNoReset (connect_v1_noStatusNoReset env)
    (enable_v1_noStatusNoReset env) (cycle_v1_noStatusNoReset env)
    (stop_v1_noStatusNoReset env) fuel s

/-! ## SDO calls, control words and torque of the blocks -/

theorem enable_v2_sdo (env : Env) (s : St) :
    (newEvents s (enable_v2 env s)).filter isSDO =
      [Event.SDOwrite DRIVE_SLAVE IDX_MODE_OF_OPERATION 0 1 10,
       Event.SDOwrite DRIVE_SLAVE IDX_CONTROLWORD 0 2 CW_SHUTDOWN,
       Event.SDOwrite DRIVE_SLAVE IDX_CONTROLWORD 0 2 CW_SWITCH_ON,
       Event.SDOwrite DRIVE_SLAVE IDX_CONTROLWORD 0 2 CW_ENABLE_OPERATION] := by
  rw [newEvents_of_append (enable_v2_trace env s)]
  simp [isSDO, DRIVE_SLAVE, IDX_MODE_OF_OPERATION, IDX_CONTROLWORD, CW_SHUTDOWN, CW_SWITCH_ON,
    CW_ENABLE_OPERATION]

theorem enable_v1_sdo (env : Env) (s : St) :
    (newEvents s (enable_v1 env s)).filter isSDO =
      [Event.SDOwrite DRIVE_SLAVE IDX_MODE_OF_OPERATION 0 1 10,
       Event.SDOwrite DRIVE_SLAVE IDX_CONTROLWORD 0 2 CW_SHUTDOWN,
       Event.SDOwrite DRIVE_SLAVE IDX_CONTROLWORD 0 2 CW_SWITCH_ON,
       Event.SDOwrite DRIVE_SLAVE IDX_CONTROLWORD 0 2 CW_ENABLE_OPERATION] := by
  rw [newEvents_of_append (enable_v1_trace env s)]
  split_ifs <;>
    simp [isSDO, DRIVE_SLAVE, IDX_MODE_OF_OPERATION, IDX_CONTROLWORD, CW_SHUTDOWN, CW_SWITCH_ON,
      CW_ENABLE_OPERATION]

theorem enable_v2_words (env : Env) (s : St) (p : Option Nat) :
    (newEvents s (enable_v2 env s)).filterMap (controlWordOf p) =
      [(CW_SHUTDOWN : Int), (CW_SWITCH_ON : Int), (CW_ENABLE_OPERATION : Int)] ∧
    (newEvents s (enable_v2 env s)).filterMap (torqueOf p) = [] := by
  rw [newEvents_of_append (enable_v2_trace env s)]
  simp [controlWordOf, torqueOf, IDX_CONTROLWORD, IDX_TARGET_TORQUE, CW_SHUTDOWN, CW_SWITCH_ON,
    CW_ENABLE_OPERATION]

theorem enable_v1_words (env : Env) (s : St) (p : Option Nat) :
    (newEvents s (enable_v1 env s)).filterMap (controlWordOf p) =
      [(CW_SHUTDOWN : Int), (CW_SWITCH_ON : Int), (CW_ENABLE_OPERATION : Int)] ∧
    (newEvents s (enable_v1 env s)).filterMap (torqueOf p) = [] := by
  rw [newEvents_of_append (enable_v1_trace env s)]
  split_ifs <;>
    simp [controlWordOf, torqueOf, IDX_CONTROLWORD, IDX_TARGET_TORQUE, CW_SHUTDOWN, CW_SWITCH_ON,
      CW_ENABLE_OPERATION]

theorem cycle_v2_torque (env : Env) (s : St) :
    (newEvents s (cycle_v2 env s)).filterMap
      (torqueOf (pdo_target_torque_ptr env DRIVE_SLAVE)) = [torque_set_v2] := by
  simp only [DRIVE_SLAVE]
  cases hr : GetDlgItem env.hStaticRPM <;> cases ho : env.outputs 1 <;> cases hi : env.inputs 1 <;>
    simp [newEvents, cycle_v2, velocity_v2, read_velocity_v2, outputs_v2, ec_send_processdata,
      ec_receive_processdata, pdo_controlword_ptr, pdo_target_torque_ptr,
      pdo_actual_velocity_ptr, ho, hi, poke16, peek32, emit, Sleep, UpdateStaticText, hr,
      write_sdo_u16, write_sdo_s32, read_sdo_s32, ec_SDOwrite, ec_SDOread, DRIVE_SLAVE,
      IDX_CONTROLWORD, IDX_TARGET_TORQUE, IDX_ACTUAL_VELOCITY, CW_ENABLE_OPERATION,
      torque_set_v2, toS32, toU16] <;>
    (try split_ifs) <;> simp [torqueOf, toS16, IDX_TARGET_TORQUE]

theorem cycle_v2_words (env : Env) (s : St) :
    (newEvents s (cycle_v2 env s)).filterMap
      (controlWordOf (pdo_controlword_ptr env DRIVE_SLAVE)) = [(CW_ENABLE_OPERATION : Int)] := by
  simp only [DRIVE_SLAVE]
  cases hr : GetDlgItem env.hStaticRPM <;> cases ho : env.outputs 1 <;> cases hi : env.inputs 1 <;>
    simp [newEvents, cycle_v2, velocity_v2, read_velocity_v2, outputs_v2, ec_send_processdata,
      ec_receive_processdata, pdo_controlword_ptr, pdo_target_torque_ptr,
      pdo_actual_velocity_ptr, ho, hi, poke16, peek32, emit, Sleep, UpdateStaticText, hr,
      write_sdo_u16, write_sdo_s32, read_sdo_s32, ec_SDOwrite, ec_SDOread, DRIVE_SLAVE,
      IDX_CONTROLWORD, IDX_TARGET_TORQUE, IDX_ACTUAL_VELOCITY, CW_ENABLE_OPERATION,
      torque_set_v2, toS32, toU16] <;>
    (try split_ifs) <;> simp [controlWordOf, IDX_CONTROLWORD]

/-- The bytes of the image at the output pointer once a cycle of v2 is over: control word
0x000F and torque 500, little endian. -/
theorem cycle_v2_image (env : Env) (s : St) (p : Nat) (ho : env.outputs DRIVE_SLAVE = some p) :
    (cycle_v2 env s).ec_IOmap p = 0x0F ∧ (cycle_v2 env s).ec_IOmap (p + 1) = 0x00 ∧
    (cycle_v2 env s).ec_IOmap (p + 2) = 0xF4 ∧ (cycle_v2 env s).ec_IOmap (p + 3) = 0x01 := by
  simp only [DRIVE_SLAVE] at ho
  cases hr : GetDlgItem env.hStaticRPM <;> cases hi : env.inputs 1 <;>
    simp [cycle_v2, velocity_v2, read_velocity_v2, outputs_v2, ec_send_processdata,
      ec_receive_processdata, pdo_controlword_ptr, pdo_target_torque_ptr,
      pdo_actual_velocity_ptr, ho, hi, poke16, peek32, emit, Sleep, UpdateStaticText, hr,
      write_sdo_u16, write_sdo_s32, read_sdo_s32, ec_SDOwrite, ec_SDOread, DRIVE_SLAVE,
      CW_ENABLE_OPERATION, torque_set_v2, toU16] <;>
    (try split_ifs) <;> simp [store16le, store8] <;> omega

/-- The shape of a cycle of v2: the send, carrying the output bytes the image holds on
entry, the receive, then the two outputs (stored, or written through SDO when the output
pointer is null), then events none of which is a process-data call, a store or an SDO
write. -/
theorem cycle_v2_shape (env : Env) (s : St) :
    ∃ rest, (cycle_v2 env s).trace = s.trace ++
      (Event.send_processdata ((env.outputs DRIVE_SLAVE).map fun a =>
          [s.ec_IOmap a, s.ec_IOmap (a + 1), s.ec_IOmap (a + 2), s.ec_IOmap (a + 3)]) ::
       Event.receive_processdata ::
       (match env.outputs DRIVE_SLAVE with
        | some p => [Event.store16 p 0x000F, Event.store16 (p + 2) 500]
        | none => [Event.SDOwrite 1 0x6040 0 2 0x000F, Event.SDOwrite 1 0x6071 0 4 500]) ++
       rest) ∧
      ∀ e ∈ rest, isPD e = false ∧ (∀ a w, e ≠ Event.store16 a w) ∧
        ∀ a b c d v, e ≠ Event.SDOwrite a b c d v := by
  simp only [DRIVE_SLAVE]
  cases hr : GetDlgItem env.hStaticRPM <;> cases ho : env.outputs 1 <;> cases hi : env.inputs 1 <;>
    simp [cycle_v2, velocity_v2, read_velocity_v2, outputs_v2, ec_send_processdata,
      ec_receive_processdata, pdo_controlword_ptr, pdo_target_torque_ptr,
      pdo_actual_velocity_ptr, ho, hi, poke16, peek32, emit, Sleep, UpdateStaticText, hr,
      write_sdo_u16, write_sdo_s32, read_sdo_s32, ec_SDOwrite, ec_SDOread, DRIVE_SLAVE,
      IDX_CONTROLWORD, IDX_TARGET_TORQUE, IDX_ACTUAL_VELOCITY, CW_ENABLE_OPERATION,
      torque_set_v2, toS32, toU16] <;>
    (try split_ifs) <;> simp [isPD]

theorem cycle_v2_head (env : Env) (s : St) :
    (newEvents s (cycle_v2 env s)).head? =
      some (Event.send_processdata ((env.outputs DRIVE_SLAVE).map fun a =>
        [s.ec_IOmap a, s.ec_IOmap (a + 1), s.ec_IOmap (a + 2), s.ec_IOmap (a + 3)])) := by
  obtain ⟨rest, h, _⟩ := cycle_v2_shape env s
  rw [newEvents_of_append h]
  rfl

/-! ## What the stop paths send -/

/-- With a null output pointer the stop path of v2 writes torque 0 through SDO. -/
theorem stop_v2_unmapped (env : Env) (s : St) (ho : env.outputs DRIVE_SLAVE = none) :
    Event.SDOwrite 1 0x6071 0 4 0 ∈ newEvents s (stop_v2 env s) := by
  simp only [DRIVE_SLAVE] at ho
  cases hr : GetDlgItem env.hStaticRPM <;> cases hi : env.inputs 1 <;>
    simp [newEvents, stop_v2, ec_send_processdata, ec_receive_processdata,
      pdo_target_torque_ptr, ho, hi, poke16, emit, Sleep, UpdateStaticText, hr, textEvents,
      write_sdo_u16,
      write_sdo_s32, read_sdo_s32, ec_SDOwrite, ec_SDOread, DRIVE_SLAVE, IDX_CONTROLWORD,
      IDX_TARGET_TORQUE, IDX_ACTUAL_VELOCITY, CW_QUICK_STOP, toS32] <;>
    split_ifs <;> simp

/-- With the outputs mapped at `p` the stop path of v2 sends and receives first, then
stores the 0, and never sends again. -/
theorem stop_v2_mapped (env : Env) (s : St) (p : Nat) (ho : env.outputs DRIVE_SLAVE = some p) :
    ∃ txt, newEvents s (stop_v2 env s) =
      [Event.send_processdata
         (some [s.ec_IOmap p, s.ec_IOmap (p + 1), s.ec_IOmap (p + 2), s.ec_IOmap (p + 3)]),
       Event.receive_processdata, Event.store16 (p + 2) 0,
       Event.SDOwrite 1 0x6040 0 2 2, Event.Sleep 50, Event.SDOread 1 0x606C 0 4] ++
      textEvents env.hStaticRPM txt := by
  simp only [DRIVE_SLAVE] at ho
  cases hr : GetDlgItem env.hStaticRPM <;> cases hi : env.inputs 1 <;>
    simp [newEvents, stop_v2, ec_send_processdata, ec_receive_processdata,
      pdo_target_torque_ptr, ho, hi, poke16, emit, Sleep, UpdateStaticText, hr, textEvents,
      write_sdo_u16,
      write_sdo_s32, read_sdo_s32, ec_SDOwrite, ec_SDOread, DRIVE_SLAVE, IDX_CONTROLWORD,
      IDX_TARGET_TORQUE, IDX_ACTUAL_VELOCITY, CW_QUICK_STOP, toS32, toU16] <;>
    split_ifs <;> simp

/-- Every run of v1 that returns with exit code 0 has written torque 0 through SDO. -/
theorem EtherCATThread_v1_zero_torque (env : Env) (fuel : Nat) (s : St)
    (h : (EtherCATThread_v1 env fuel s).2 = some 0) :
    Event.SDOwrite 1 0x6071 0 4 0 ∈ newEvents s (EtherCATThread_v1 env fuel s).1 := by
  have hx := (EtherCATThread_v1_exit env fuel s 0 h).2 rfl
  have hcon := (EtherCATThread_v1_exit env fuel s 0 h).1.1 rfl
  obtain ⟨l₀, h₀⟩ := connect_v1_extends env s
  obtain ⟨l₁, h₁⟩ := enable_v1_extends env (connect_v1 env s).2
  obtain ⟨l₂, h₂⟩ := loop_v1_extends env fuel (enable_v1 env (connect_v1 env s).2)
  obtain ⟨txt, h₃⟩ := stop_v1_trace env (loop_v1 env fuel (enable_v1 env (connect_v1 env s).2)).1
  rw [hx]
  rw [h₂, h₁, h₀] at h₃
  simp only [List.append_assoc] at h₃
  rw [newEvents_of_append h₃]
  simp

/-- Every run of v2 with a null output pointer that returns has written torque 0 through
SDO. -/
theorem RunLoop_unmapped_zero_torque (env : Env) (fuel : Nat) (s : St)
    (ho : env.outputs DRIVE_SLAVE = none) (h : (RunLoop env fuel s).2 = some 0) :
    Event.SDOwrite 1 0x6071 0 4 0 ∈ newEvents s (RunLoop env fuel s).1 := by
  have hx := (RunLoop_exit env fuel s 0 h).2
  obtain ⟨l₁, h₁⟩ := enable_v2_extends env s
  obtain ⟨l₂, h₂⟩ := loop_v2_extends env fuel (enable_v2 env s)
  obtain ⟨l₃, h₃⟩ := stop_v2_extends env (loop_v2 env fuel (enable_v2 env s)).1
  have hm := stop_v2_unmapped env (loop_v2 env fuel (enable_v2 env s)).1 ho
  rw [newEvents_of_append h₃] at hm
  rw [hx]
  rw [h₂, h₁] at h₃
  simp only [List.append_assoc] at h₃
  rw [newEvents_of_append h₃]
  simp [hm]

/-- Every run of v2 with the outputs mapped at `p` that returns ends like this: a last
send and receive, then the store of 0 at the torque offset, then SDO traffic only. Before
that, the only torque ever written is 500. -/
theorem RunLoop_mapped_stop_tail (env : Env) (fuel : Nat) (s : St) (p : Nat)
    (ho : env.outputs DRIVE_SLAVE = some p) (h : (RunLoop env fuel s).2 = some 0) :
    ∃ pre out txt, newEvents s (RunLoop env fuel s).1 = pre ++
      ([Event.send_processdata out, Event.receive_processdata, Event.store16 (p + 2) 0,
       Event.SDOwrite 1 0x6040 0 2 2, Event.Sleep 50, Event.SDOread 1 0x606C 0 4] ++
       textEvents env.hStaticRPM txt) ∧
      ∀ e ∈ pre, ∀ v, torqueOf (some (p + 2)) e = some v → v = 500 := by
  have hx := (RunLoop_exit env fuel s 0 h).2
  obtain ⟨l₁, h₁⟩ := enable_v2_extends env s
  obtain ⟨l₂, h₂⟩ := loop_v2_extends env fuel (enable_v2 env s)
  obtain ⟨l₃, h₃⟩ := stop_v2_extends env (loop_v2 env fuel (enable_v2 env s)).1
  obtain ⟨txt, hm⟩ := stop_v2_mapped env (loop_v2 env fuel (enable_v2 env s)).1 p ho
  rw [newEvents_of_append h₃] at hm
  have htt : pdo_target_torque_ptr env DRIVE_SLAVE = some (p + 2) := by
    simp [pdo_target_torque_ptr, ho]
  refine ⟨l₁ ++ l₂, some [(loop_v2 env fuel (enable_v2 env s)).1.ec_IOmap p,
    (loop_v2 env fuel (enable_v2 env s)).1.ec_IOmap (p + 1),
    (loop_v2 env fuel (enable_v2 env s)).1.ec_IOmap (p + 2),
    (loop_v2 env fuel (enable_v2 env s)).1.ec_IOmap (p + 3)], txt, ?_, ?_⟩
  · rw [hx]
    rw [h₂, h₁] at h₃
    simp only [List.append_assoc] at h₃
    rw [newEvents_of_append h₃, hm, List.append_assoc]
  · intro e he v hv
    rcases List.mem_append.1 he with he | he
    · have := (enable_v2_words env s (some (p + 2))).2
      rw [newEvents_of_append h₁] at this
      have hmem : v ∈ l₁.filterMap (torqueOf (some (p + 2))) := List.mem_filterMap.2 ⟨e, he, hv⟩
      rw [this] at hmem
      simp at hmem
    · refine loop_v2_forall env (fun e => ∀ v, torqueOf (some (p + 2)) e = some v → v = 500)
        ?_ fuel (enable_v2 env s) e (by rw [newEvents_of_append h₂]; exact he) v hv
      intro u e' he' v' hv'
      have hmem : v' ∈ (newEvents u (cycle_v2 env u)).filterMap (torqueOf (some (p + 2))) :=
        List.mem_filterMap.2 ⟨e', he', hv'⟩
      rw [← htt, cycle_v2_torque] at hmem
      simpa [torque_set_v2] using hmem

/-! ## The connect thread of v2 -/

theorem UpdateStaticText_eq (s : St) (id : Int) (txt : String) :
    UpdateStaticText s id txt = { s with trace := s.trace ++ textEvents id txt } := by
  cases h : GetDlgItem id <;> simp [UpdateStaticText, textEvents, h, emit]

theorem textEvents_mem (id : Int) (txt : String) (e : Event) (h : e ∈ textEvents id txt) :
    ∃ c, e = Event.SetText c txt := by
  cases hg : GetDlgItem id <;> simp [textEvents, hg] at h
  exact ⟨_, h⟩

theorem textEvents_none (id : Int) (txt : String) (h : GetDlgItem id = none) :
    textEvents id txt = [] := by
  simp [textEvents, h]

theorem connect_v2_extends (env : Env) (s : St) :
    ∃ l, (connect_v2 env s).2.trace = s.trace ++ l := by
  simp only [connect_v2]
  split_ifs <;> simp [emit, UpdateStaticText_eq]

/-- The bus bring-up of v2 issues no SDO call and touches no process data. -/
theorem connect_v2_events (env : Env) (s : St) :
    ∀ e ∈ newEvents s (connect_v2 env s).2,
      isSDO e = false ∧ isPD e = false ∧ isImageAccess e = false := by
  cases hs : GetDlgItem env.hStaticState <;> simp only [connect_v2, newEvents] <;>
    split_ifs <;> simp [emit, UpdateStaticText, hs, isSDO, isPD, isImageAccess]

/-- The bring-up of v2 succeeds exactly when the three checks pass. -/
theorem connect_v2_ok (env : Env) (s : St) :
    (connect_v2 env s).1 = true ↔
      (env.ec_init ≠ 0 ∧ 0 < env.ec_config_init ∧ env.slave_state = EC_STATE_OPERATIONAL) := by
  simp only [connect_v2]
  split_ifs with h1 h2 h3 <;> simp_all

/-- The bring-up of v1 succeeds exactly when the three checks pass. -/
theorem connect_v1_ok (env : Env) (s : St) :
    (connect_v1 env s).1 = true ↔
      (env.ec_init ≠ 0 ∧ 0 < env.ec_config_init ∧ env.slave_state = EC_STATE_OPERATIONAL) := by
  simp only [connect_v1]
  split_ifs with h1 h2 h3 <;> simp_all

theorem connect_v2_flag (env : Env) (s : St) :
    (connect_v2 env s).2.connected_flag = (connect_v2 env s).1 := by
  simp only [connect_v2]
  split_ifs <;> simp [emit, UpdateStaticText_eq]

theorem wait_v2_extends (env : Env) :
    ∀ fuel s, ∃ l, (wait_v2 env fuel s).1.trace = s.trace ++ l ∧
      (∀ e ∈ l, e = Event.Sleep 100) ∧
      (wait_v2 env fuel s).1.connected_flag = s.connected_flag ∧
      (wait_v2 env fuel s).1.run_flag = s.run_flag := by
  intro fuel
  induction fuel with
  | zero => intro s; exact ⟨[], by simp [wait_v2]⟩
  | succ n ih =>
    intro s
    simp only [wait_v2]
    split_ifs with hf
    · obtain ⟨l, h, hl, hc, hr⟩ := ih (Sleep { s with waits := s.waits + 1 } 100)
      refine ⟨Event.Sleep 100 :: l, ?_, ?_, ?_, ?_⟩
      · rw [h]; simp [Sleep, emit]
      · intro e he
        rcases List.mem_cons.1 he with he | he
        · exact he
        · exact hl e he
      · rw [hc]; simp [Sleep, emit]
      · rw [hr]; simp [Sleep, emit]
    · exact ⟨[], by simp⟩

/-- The wait loop of v2 is left once `connected_flag` reads false. -/
theorem wait_v2_returns (env : Env) :
    ∀ k s, env.connected_flag (s.waits + k) = false → (wait_v2 env (k + 1) s).2 = true := by
  intro k
  induction k with
  | zero =>
    intro s h
    simp only [Nat.add_zero] at h
    simp [wait_v2, h]
  | succ n ih =>
    intro s h
    by_cases hf : env.connected_flag s.waits = true
    · rw [wait_v2, if_pos hf]
      refine ih _ ?_
      simpa [Sleep, emit, Nat.add_assoc, Nat.add_comm 1 n] using h
    · rw [wait_v2, if_neg hf]

/-- No run of the connect thread of v2 issues an SDO call or touches process data. -/
theorem EtherCATThread_v2_events (env : Env) (fuel : Nat) (s : St) :
    ∀ e ∈ newEvents s (EtherCATThread_v2 env fuel s).1,
      isSDO e = false ∧ isPD e = false ∧ isImageAccess e = false := by
  obtain ⟨l₀, h₀⟩ := connect_v2_extends env s
  obtain ⟨l₁, h₁, hl₁, _, _⟩ := wait_v2_extends env fuel (connect_v2 env s).2
  have hc := connect_v2_events env s
  rw [newEvents_of_append h₀] at hc
  have hw : ∀ e ∈ l₁, isSDO e = false ∧ isPD e = false ∧ isImageAccess e = false := by
    intro e he
    rw [hl₁ e he]
    simp [isSDO, isPD, isImageAccess]
  have t₁ : (wait_v2 env fuel (connect_v2 env s).2).1.trace = s.trace ++ (l₀ ++ l₁) := by
    rw [h₁, h₀, List.append_assoc]
  intro e he
  simp only [EtherCATThread_v2] at he
  split_ifs at he with hcon hl
  · have t₂ : (UpdateStaticText (emit (wait_v2 env fuel (connect_v2 env s).2).1 Event.ec_close)
        env.hStaticState "Disconnected").trace =
        s.trace ++ (l₀ ++ l₁ ++ (Event.ec_close :: textEvents env.hStaticState "Disconnected")) := by
      simp [UpdateStaticText_eq, emit, t₁]
    rw [newEvents_of_append t₂] at he
    simp only [List.mem_append, List.mem_cons] at he
    rcases he with (he | he) | he | he
    · exact hc e he
    · exact hw e he
    · rw [he]; simp [isSDO, isPD, isImageAccess]
    · obtain ⟨c, hc'⟩ := textEvents_mem _ _ e he
      rw [hc']; simp [isSDO, isPD, isImageAccess]
  · rw [newEvents_of_append t₁] at he
    rcases List.mem_append.1 he with he | he
    · exact hc e he
    · exact hw e he
  · exact connect_v2_events env s e he

/-- With no child window under the number of `hStaticState`, the bring-up of v2 sets no
text. -/
theorem connect_v2_no_text (env : Env) (s : St) (hs : GetDlgItem env.hStaticState = none) :
    ∀ e ∈ newEvents s (connect_v2 env s).2, isText e = false := by
  simp only [connect_v2, newEvents]
  split_ifs <;> simp [emit, UpdateStaticText, hs, isText]

/-- With no child window under the number of `hStaticState`, no run of the connect thread
of v2 sets a text. -/
theorem EtherCATThread_v2_no_text (env : Env) (fuel : Nat) (s : St)
    (hs : GetDlgItem env.hStaticState = none) :
    ∀ e ∈ newEvents s (EtherCATThread_v2 env fuel s).1, isText e = false := by
  obtain ⟨l₀, h₀⟩ := connect_v2_extends env s
  obtain ⟨l₁, h₁, hl₁, _, _⟩ := wait_v2_extends env fuel (connect_v2 env s).2
  have hc := connect_v2_no_text env s hs
  rw [newEvents_of_append h₀] at hc
  have hw : ∀ e ∈ l₁, isText e = false := by
    intro e he
    rw [hl₁ e he]
    rfl
  have t₁ : (wait_v2 env fuel (connect_v2 env s).2).1.trace = s.trace ++ (l₀ ++ l₁) := by
    rw [h₁, h₀, List.append_assoc]
  intro e he
  simp only [EtherCATThread_v2] at he
  split_ifs at he with hcon hl
  · have t₂ : (UpdateStaticText (emit (wait_v2 env fuel (connect_v2 env s).2).1 Event.ec_close)
        env.hStaticState "Disconnected").trace =
        s.trace ++ (l₀ ++ l₁ ++ [Event.ec_close]) := by
      simp [UpdateStaticText_eq, textEvents_none _ _ hs, emit, t₁]
    rw [newEvents_of_append t₂] at he
    simp only [List.mem_append, List.mem_singleton] at he
    rcases he with (he | he) | he
    · exact hc e he
    · exact hw e he
    · rw [he]; rfl
  · rw [newEvents_of_append t₁] at he
    rcases List.mem_append.1 he with he | he
    · exact hc e he
    · exact hw e he
  · exact connect_v2_no_text env s hs e he

/-- The flags the connect thread of v2 leaves behind: `connected_flag` is what the bring-up
set it to. -/
theorem EtherCATThread_v2_flag (env : Env) (fuel : Nat) (s : St) :
    (EtherCATThread_v2 env fuel s).1.connected_flag = (connect_v2 env s).1 := by
  obtain ⟨l₁, _, _, hc, _⟩ := wait_v2_extends env fuel (connect_v2 env s).2
  simp only [EtherCATThread_v2]
  split_ifs with hcon hl
  · simp [UpdateStaticText_eq, emit, hc, connect_v2_flag]
  · rw [hc, connect_v2_flag]
  · rw [connect_v2_flag]

/-- The connect thread of v2 returns once `connected_flag` reads false. -/
theorem EtherCATThread_v2_returns (env : Env) (k : Nat) (s : St)
    (h : env.connected_flag (s.waits + k) = false) :
    ∃ c, (EtherCATThread_v2 env (k + 1) s).2 = some c := by
  have hw : (connect_v2 env s).2.waits = s.waits := by
    simp only [connect_v2]
    split_ifs <;> simp [emit, UpdateStaticText_eq]
  simp only [EtherCATThread_v2]
  split_ifs with hcon hl
  · exact ⟨0, rfl⟩
  · exact absurd (wait_v2_returns env k _ (by rw [hw]; exact h)) hl
  · exact ⟨1, rfl⟩

/-! ## Addresses of the SDO requests -/

theorem sdoAddressOK_of_not_sdo {e : Event} (h : isSDO e = false) : sdoAddressOK e := by
  cases e <;> simp_all [isSDO, sdoAddressOK]

theorem enable_v2_sdoAddressOK (env : Env) (s : St) :
    ∀ e ∈ newEvents s (enable_v2 env s), sdoAddressOK e := by
  rw [newEvents_of_append (enable_v2_trace env s)]
  simp [sdoAddressOK, specObjects, IDX_CONTROLWORD, IDX_STATUSWORD, IDX_MODE_OF_OPERATION,
    IDX_TARGET_TORQUE, IDX_ACTUAL_VELOCITY]

theorem cycle_v2_sdoAddressOK (env : Env) (s : St) :
    ∀ e ∈ newEvents s (cycle_v2 env s), sdoAddressOK e := by
  cases hr : GetDlgItem env.hStaticRPM <;> cases ho : env.outputs 1 <;> cases hi : env.inputs 1 <;>
    simp [newEvents, cycle_v2, velocity_v2, read_velocity_v2, outputs_v2, ec_send_processdata,
      ec_receive_processdata, pdo_controlword_ptr, pdo_target_torque_ptr,
      pdo_actual_velocity_ptr, ho, hi, poke16, peek32, emit, Sleep, UpdateStaticText, hr,
      write_sdo_u16, write_sdo_s32, read_sdo_s32, ec_SDOwrite, ec_SDOread, DRIVE_SLAVE,
      IDX_CONTROLWORD, IDX_TARGET_TORQUE, IDX_ACTUAL_VELOCITY, CW_ENABLE_OPERATION,
      torque_set_v2, toS32, toU16] <;>
    (try split_ifs) <;>
    simp [sdoAddressOK, specObjects, IDX_CONTROLWORD, IDX_STATUSWORD, IDX_MODE_OF_OPERATION,
      IDX_TARGET_TORQUE, IDX_ACTUAL_VELOCITY]

theorem stop_v2_sdoAddressOK (env : Env) (s : St) :
    ∀ e ∈ newEvents s (stop_v2 env s), sdoAddressOK e := by
  cases hr : GetDlgItem env.hStaticRPM <;> cases ho : env.outputs 1 <;> cases hi : env.inputs 1 <;>
    simp [newEvents, stop_v2, ec_send_processdata, ec_receive_processdata,
      pdo_target_torque_ptr, ho, hi, poke16, emit, Sleep, UpdateStaticText, hr, write_sdo_u16,
      write_sdo_s32, read_sdo_s32, ec_SDOwrite, ec_SDOread, DRIVE_SLAVE, IDX_CONTROLWORD,
      IDX_TARGET_TORQUE, IDX_ACTUAL_VELOCITY, CW_QUICK_STOP, toS32, toU16] <;>
    (try split_ifs) <;>
    simp [sdoAddressOK, specObjects, IDX_CONTROLWORD, IDX_STATUSWORD, IDX_MODE_OF_OPERATION,
      IDX_TARGET_TORQUE, IDX_ACTUAL_VELOCITY]

theorem enable_v1_sdoAddressOK (env : Env) (s : St) :
    ∀ e ∈ newEvents s (enable_v1 env s), sdoAddressOK e := by
  rw [newEvents_of_append (enable_v1_trace env s)]
  split_ifs <;>
    simp [sdoAddressOK, specObjects, IDX_CONTROLWORD, IDX_STATUSWORD, IDX_MODE_OF_OPERATION,
      IDX_TARGET_TORQUE, IDX_ACTUAL_VELOCITY]

theorem cycle_v1_sdoAddressOK (env : Env) (s : St) :
    ∀ e ∈ newEvents s (cycle_v1 env s), sdoAddressOK e := by
  rw [newEvents_of_append (cycle_v1_trace env s)]
  simp [sdoAddressOK, specObjects, IDX_CONTROLWORD, IDX_STATUSWORD, IDX_MODE_OF_OPERATION,
    IDX_TARGET_TORQUE, IDX_ACTUAL_VELOCITY]

theorem stop_v1_sdoAddressOK (env : Env) (s : St) :
    ∀ e ∈ newEvents s (stop_v1 env s), sdoAddressOK e := by
  obtain ⟨txt, h⟩ := stop_v1_trace env s
  rw [newEvents_of_append h]
  simp [sdoAddressOK, specObjects, IDX_CONTROLWORD, IDX_STATUSWORD, IDX_MODE_OF_OPERATION,
    IDX_TARGET_TORQUE, IDX_ACTUAL_VELOCITY]

/-! ## When the loops are left -/

theorem all_lt_succ_iff (f : Nat → Bool) (a n : Nat) :
    (∀ k < n + 1, f (a + k) = true) ↔ f a = true ∧ ∀ k < n, f (a + 1 + k) = true := by
  constructor
  · intro h
    refine ⟨by simpa using h 0 (Nat.succ_pos n), fun k hk => ?_⟩
    have := h (k + 1) (Nat.succ_lt_succ hk)
    simpa [Nat.add_assoc, Nat.add_comm 1 k] using this
  · rintro ⟨h0, h⟩ k hk
    cases k with
    | zero => simpa using h0
    | succ m =>
      have := h m (Nat.lt_of_succ_lt_succ hk)
      simpa [Nat.add_assoc, Nat.add_comm 1 m] using this

/-- After `fuel` tests the loop of v2 is still running exactly when `run_flag` read true
at each of them: nothing else, in particular no result of a channel call, ends it. -/
theorem loop_v2_running (env : Env) :
    ∀ fuel s, (loop_v2 env fuel s).2 = false ↔ ∀ k < fuel, env.run_flag (s.polls + k) = true := by
  intro fuel
  induction fuel with
  | zero => intro s; simp [loop_v2]
  | succ n ih =>
    intro s
    rw [all_lt_succ_iff]
    by_cases hf : env.run_flag s.polls = true
    · rw [loop_v2, if_pos hf, ih, cycle_v2_polls]
      simp [hf]
    · rw [loop_v2, if_neg hf]
      simp [hf]

/-- After `fuel` tests the loop of v1 is still running exactly when `run_flag` read true
at each of them. -/
theorem loop_v1_running (env : Env) :
    ∀ fuel s, (loop_v1 env fuel s).2 = false ↔ ∀ k < fuel, env.run_flag (s.polls + k) = true := by
  intro fuel
  induction fuel with
  | zero => intro s; simp [loop_v1]
  | succ n ih =>
    intro s
    rw [all_lt_succ_iff]
    by_cases hf : env.run_flag s.polls = true
    · rw [loop_v1, if_pos hf, ih, cycle_v1_polls]
      simp [hf]
    · rw [loop_v1, if_neg hf]
      simp [hf]

/-- While the loop of v2 is running, a quantity that every cycle emits exactly once has
been emitted once per test. -/
theorem loop_v2_filterMap {α : Type} (env : Env) (f : Event → Option α) (x : α)
    (hc : ∀ s, (newEvents s (cycle_v2 env s)).filterMap f = [x]) :
    ∀ fuel s, (∀ k < fuel, env.run_flag (s.polls + k) = true) →
      (newEvents s (loop_v2 env fuel s).1).filterMap f = List.replicate fuel x := by
  intro fuel
  induction fuel with
  | zero => intro s _; simp [loop_v2, newEvents]
  | succ n ih =>
    intro s h
    rw [all_lt_succ_iff] at h
    obtain ⟨l₁, h₁⟩ := cycle_v2_extends env { s with polls := s.polls + 1 }
    obtain ⟨l₂, h₂⟩ := loop_v2_extends env n (cycle_v2 env { s with polls := s.polls + 1 })
    have e₁ : (newEvents { s with polls := s.polls + 1 }
        (cycle_v2 env { s with polls := s.polls + 1 })).filterMap f = [x] := hc _
    have e₂ := ih (cycle_v2 env { s with polls := s.polls + 1 })
      (by rw [cycle_v2_polls]; exact h.2)
    rw [newEvents_of_append h₁] at e₁
    rw [newEvents_of_append h₂] at e₂
    rw [loop_v2, if_pos h.1]
    rw [newEvents_trans (s := s) (t := cycle_v2 env { s with polls := s.polls + 1 }) h₁ h₂,
      List.filterMap_append, e₁, e₂]
    rfl

/-- While the loop of v1 is running, a quantity that every cycle emits exactly once has
been emitted once per test. -/
theorem loop_v1_filterMap {α : Type} (env : Env) (f : Event → Option α) (x : α)
    (hc : ∀ s, (newEvents s (cycle_v1 env s)).filterMap f = [x]) :
    ∀ fuel s, (∀ k < fuel, env.run_flag (s.polls + k) = true) →
      (newEvents s (loop_v1 env fuel s).1).filterMap f = List.replicate fuel x := by
  intro fuel
  induction fuel with
  | zero => intro s _; simp [loop_v1, newEvents]
  | succ n ih =>
    intro s h
    rw [all_lt_succ_iff] at h
    obtain ⟨l₁, h₁⟩ := cycle_v1_extends env { s with polls := s.polls + 1 }
    obtain ⟨l₂, h₂⟩ := loop_v1_extends env n (cycle_v1 env { s with polls := s.polls + 1 })
    have e₁ : (newEvents { s with polls := s.polls + 1 }
        (cycle_v1 env { s with polls := s.polls + 1 })).filterMap f = [x] := hc _
    have e₂ := ih (cycle_v1 env { s with polls := s.polls + 1 })
      (by rw [cycle_v1_polls]; exact h.2)
    rw [newEvents_of_append h₁] at e₁
    rw [newEvents_of_append h₂] at e₂
    rw [loop_v1, if_pos h.1]
    rw [newEvents_trans (s := s) (t := cycle_v1 env { s with polls := s.polls + 1 }) h₁ h₂,
      List.filterMap_append, e₁, e₂]
    rfl

theorem cycle_v1_torque (env : Env) (s : St) (p : Option Nat) :
    (newEvents s (cycle_v1 env s)).filterMap (torqueOf p) = [torque_set_v1] ∧
    (newEvents s (cycle_v1 env s)).filterMap (controlWordOf p) = [] := by
  rw [newEvents_of_append (cycle_v1_trace env s)]
  simp [torqueOf, controlWordOf, IDX_TARGET_TORQUE, IDX_CONTROLWORD, torque_set_v1]

theorem filterMap_eq_nil_of_forall {α : Type} (f : Event → Option α) (l : List Event)
    (h : ∀ e ∈ l, f e = none) : l.filterMap f = [] := by
  induction l with
  | nil => rfl
  | cons a t ih =>
    rw [List.filterMap_cons, h a (List.mem_cons_self a t)]
    exact ih fun e he => h e (List.mem_cons_of_mem a he)

/-- An event that is neither an SDO call nor an access to the image commands no torque and
no control word. -/
theorem commands_none_of_quiet {e : Event} (p : Option Nat) (h₁ : isSDO e = false)
    (h₂ : isImageAccess e = false) : torqueOf p e = none ∧ controlWordOf p e = none := by
  cases e <;> simp_all [isSDO, isImageAccess, torqueOf, controlWordOf]

/-- The thread `RunLoop` is still in its loop after `fuel` tests exactly when `run_flag`
read true at each of them. -/
theorem RunLoop_running (env : Env) (fuel : Nat) (s : St) :
    (RunLoop env fuel s).2 = none ↔ ∀ k < fuel, env.run_flag (s.polls + k) = true := by
  rw [← enable_v2_polls env s, ← loop_v2_running]
  simp only [RunLoop]
  split_ifs with h <;> simp [h]

/-- What a run of `RunLoop` that is still in its loop has commanded: the three control words
of the enable sequence, then enable operation and torque 500 once per cycle. -/
theorem RunLoop_running_commands (env : Env) (fuel : Nat) (s : St)
    (h : ∀ k < fuel, env.run_flag (s.polls + k) = true) :
    (newEvents s (RunLoop env fuel s).1).filterMap
        (torqueOf (pdo_target_torque_ptr env DRIVE_SLAVE)) = List.replicate fuel 500 ∧
    (newEvents s (RunLoop env fuel s).1).filterMap
        (controlWordOf (pdo_controlword_ptr env DRIVE_SLAVE)) = [6, 7, 15] ++ List.replicate fuel 15 := by
  have hrun := (RunLoop_running env fuel s).2 h
  have hst : (RunLoop env fuel s).1 = (loop_v2 env fuel (enable_v2 env s)).1 := by
    simp only [RunLoop] at hrun ⊢
    split_ifs at hrun ⊢ with hl
    rfl
  have h' : ∀ k < fuel, env.run_flag ((enable_v2 env s).polls + k) = true := by
    rw [enable_v2_polls]; exact h
  obtain ⟨l₁, h₁⟩ := enable_v2_extends env s
  obtain ⟨l₂, h₂⟩ := loop_v2_extends env fuel (enable_v2 env s)
  have ht := loop_v2_filterMap env _ _ (cycle_v2_torque env) fuel (enable_v2 env s) h'
  have hw := loop_v2_filterMap env _ _ (cycle_v2_words env) fuel (enable_v2 env s) h'
  have et := (enable_v2_words env s (pdo_target_torque_ptr env DRIVE_SLAVE)).2
  have ew := (enable_v2_words env s (pdo_controlword_ptr env DRIVE_SLAVE)).1
  rw [newEvents_of_append h₂] at ht hw
  rw [newEvents_of_append h₁] at et ew
  rw [hst, newEvents_trans h₁ h₂, List.filterMap_append, List.filterMap_append, et, ew, ht, hw]
  simp [torque_set_v2, CW_SHUTDOWN, CW_SWITCH_ON, CW_ENABLE_OPERATION]

/-- When the bus came up, v1 `EtherCATThread` is still in its loop after `fuel` tests exactly
when `run_flag` read true at each of them. -/
theorem EtherCATThread_v1_running (env : Env) (fuel : Nat) (s : St)
    (hcon : (connect_v1 env s).1 = true) :
    (EtherCATThread_v1 env fuel s).2 = none ↔ ∀ k < fuel, env.run_flag (s.polls + k) = true := by
  rw [← connect_v1_polls env s, ← enable_v1_polls env (connect_v1 env s).2, ← loop_v1_running]
  simp only [EtherCATThread_v1, if_pos hcon]
  split_ifs with h <;> simp [h]

/-- What a run of v1 that is still in its loop has commanded: the three control words of the
enable sequence and torque 1000 once per cycle. -/
theorem EtherCATThread_v1_running_commands (env : Env) (fuel : Nat) (s : St) (p : Option Nat)
    (hcon : (connect_v1 env s).1 = true)
    (h : ∀ k < fuel, env.run_flag (s.polls + k) = true) :
    (newEvents s (EtherCATThread_v1 env fuel s).1).filterMap (torqueOf p)
      = List.replicate fuel 1000 ∧
    (newEvents s (EtherCATThread_v1 env fuel s).1).filterMap (controlWordOf p) = [6, 7, 15] := by
  have hrun := (EtherCATThread_v1_running env fuel s hcon).2 h
  have hst : (EtherCATThread_v1 env fuel s).1 =
      (loop_v1 env fuel (enable_v1 env (connect_v1 env s).2)).1 := by
    simp only [EtherCATThread_v1, if_pos hcon] at hrun ⊢
    split_ifs at hrun ⊢ with hl
    rfl
  have h' : ∀ k < fuel, env.run_flag ((enable_v1 env (connect_v1 env s).2).polls + k) = true := by
    rw [enable_v1_polls, connect_v1_polls]; exact h
  obtain ⟨l₀, h₀⟩ := connect_v1_extends env s
  obtain ⟨l₁, h₁⟩ := enable_v1_extends env (connect_v1 env s).2
  obtain ⟨l₂, h₂⟩ := loop_v1_extends env fuel (enable_v1 env (connect_v1 env s).2)
  have ht := loop_v1_filterMap env _ _ (fun u => (cycle_v1_torque env u p).1) fuel _ h'
  have hw : l₂.filterMap (controlWordOf p) = [] := by
    refine filterMap_eq_nil_of_forall _ _ fun e he => ?_
    have := loop_v1_forall env (fun e => controlWordOf p e = none) (fun u e he => by
      have hn := (cycle_v1_torque env u p).2
      exact (List.filterMap_eq_nil_iff.1 hn) e he) fuel (enable_v1 env (connect_v1 env s).2) e
    exact this (by rw [newEvents_of_append h₂]; exact he)
  have hk := connect_v1_events env s
  rw [newEvents_of_append h₀] at hk
  have kt : l₀.filterMap (torqueOf p) = [] :=
    filterMap_eq_nil_of_forall _ _ fun e he =>
      (commands_none_of_quiet p (hk e he).1 (hk e he).2.2).1
  have kw : l₀.filterMap (controlWordOf p) = [] :=
    filterMap_eq_nil_of_forall _ _ fun e he =>
      (commands_none_of_quiet p (hk e he).1 (hk e he).2.2).2
  have et := (enable_v1_words env (connect_v1 env s).2 p).2
  have ew := (enable_v1_words env (connect_v1 env s).2 p).1
  rw [newEvents_of_append h₂] at ht
  rw [newEvents_of_append h₁] at et ew
  have t₂ : (loop_v1 env fuel (enable_v1 env (connect_v1 env s).2)).1.trace
      = s.trace ++ (l₀ ++ l₁ ++ l₂) := by
    rw [h₂, h₁, h₀]; simp only [List.append_assoc]
  rw [hst, newEvents_of_append t₂]
  simp only [List.filterMap_append, kt, kw, et, ew, ht, hw]
  simp [torque_set_v1, CW_SHUTDOWN, CW_SWITCH_ON, CW_ENABLE_OPERATION]

/-! ## The object store -/

theorem toS32_of_range (v : Int) (h₁ : -2147483648 ≤ v) (h₂ : v < 2147483648) : toS32 v = v := by
  unfold toS32
  omega

theorem lastWritten_append_write (slave idx sub size : Nat) (v : Int) (tr : List Event) :
    lastWritten slave idx sub (tr ++ [Event.SDOwrite slave idx sub size v]) = some v := by
  induction tr with
  | nil => simp [lastWritten]
  | cons e t ih =>
    cases e <;> simp [lastWritten, ih]

theorem lastWritten_append_read (slave idx sub a b c d : Nat) (tr : List Event) :
    lastWritten slave idx sub (tr ++ [Event.SDOread a b c d]) = lastWritten slave idx sub tr := by
  induction tr with
  | nil => simp [lastWritten]
  | cons e t ih =>
    cases e <;> simp [lastWritten, ih]

/-- The object store `storeEnv` is a fault-free channel. -/
theorem storeEnv_faultFree : FaultFree storeEnv := by
  intro tr slave idx sub size
  refine ⟨fun val => by simp [storeEnv, quietEnv], fun v hv => ?_⟩
  simp [storeEnv, lastWritten_append_read, hv]

/-- The text of a reading is never the text "RPM: (no velocity)". -/
theorem rpmText_ne_no_velocity (v : Int) (b : Bool) : rpmText v b ≠ "RPM: (no velocity)" := by
  intro h
  have h2 := congrArg (fun s => (s.data.reverse.take 2)) h
  cases b <;> simp [rpmText, String.data_append] at h2

/-! ## The image after the staging of v2 -/

/-- With the outputs mapped at `p`, the staging writes the four bytes `p .. p + 3` and no
other byte of the image. -/
theorem outputs_v2_image (env : Env) (s : St) (p : Nat) (ho : env.outputs DRIVE_SLAVE = some p) :
    (outputs_v2 env s).ec_IOmap p = 0x0F ∧ (outputs_v2 env s).ec_IOmap (p + 1) = 0x00 ∧
    (outputs_v2 env s).ec_IOmap (p + 2) = 0xF4 ∧ (outputs_v2 env s).ec_IOmap (p + 3) = 0x01 ∧
    ∀ a, a < p ∨ p + 4 ≤ a → (outputs_v2 env s).ec_IOmap a = s.ec_IOmap a := by
  simp only [DRIVE_SLAVE] at ho
  simp only [outputs_v2, pdo_controlword_ptr, pdo_target_torque_ptr, DRIVE_SLAVE, ho, poke16,
    emit, CW_ENABLE_OPERATION, torque_set_v2, toU16, store16le, store8]
  refine ⟨?_, ?_, ?_, ?_, ?_⟩
  · simp; omega
  · simp
  · simp
  · simp
  · intro a ha
    have h1 : a ≠ p := by omega
    have h2 : a ≠ p + 1 := by omega
    have h3 : a ≠ p + 2 := by omega
    have h4 : a ≠ p + 2 + 1 := by omega
    simp [h1, h2, h3, h4]

/-- The velocity block of v2 does not write to the image. -/
theorem velocity_v2_image (env : Env) (s : St) :
    (velocity_v2 env s).ec_IOmap = s.ec_IOmap := by
  cases hi : env.inputs 1
  · simp only [velocity_v2, read_velocity_v2, pdo_actual_velocity_ptr, hi, UpdateStaticText_eq,
      read_sdo_s32, ec_SDOread, DRIVE_SLAVE]
    split_ifs <;> simp [emit]
  · simp [velocity_v2, read_velocity_v2, pdo_actual_velocity_ptr, hi, peek32, emit,
      UpdateStaticText_eq, DRIVE_SLAVE]

/-- The image a cycle of v2 leaves is the one its staging leaves. -/
theorem cycle_v2_image_eq (env : Env) (s : St) :
    (cycle_v2 env s).ec_IOmap =
      (outputs_v2 env (ec_receive_processdata env (ec_send_processdata env s)).2).ec_IOmap := by
  simp only [cycle_v2, Sleep, emit, velocity_v2_image]

/-- With the inputs mapped at `q`, a cycle of v2 reads its velocity from the image: the
value is the signed 32-bit number the image holds at `q + 2 .. q + 5` after the staging,
and it is loaded once. -/
theorem cycle_v2_pdo_reading (env : Env) (s : St) (q : Nat)
    (hi : env.inputs DRIVE_SLAVE = some q) :
    (read_velocity_v2 env
        (outputs_v2 env (ec_receive_processdata env (ec_send_processdata env s)).2)).1 = true ∧
    (read_velocity_v2 env
        (outputs_v2 env (ec_receive_processdata env (ec_send_processdata env s)).2)).2.1 =
      toS32 (load32le (cycle_v2 env s).ec_IOmap (q + 2)) ∧
    (newEvents s (cycle_v2 env s)).filter isImageLoad = [Event.load32 (q + 2)] := by
  simp only [DRIVE_SLAVE] at hi
  refine ⟨?_, ?_, ?_⟩
  · simp [read_velocity_v2, pdo_actual_velocity_ptr, hi, DRIVE_SLAVE]
  · rw [cycle_v2_image_eq]
    simp [read_velocity_v2, pdo_actual_velocity_ptr, hi, DRIVE_SLAVE, peek32]
  · cases hr : GetDlgItem env.hStaticRPM <;> cases ho : env.outputs 1 <;>
      simp [newEvents, cycle_v2, velocity_v2, read_velocity_v2, outputs_v2, ec_send_processdata,
        ec_receive_processdata, pdo_controlword_ptr, pdo_target_torque_ptr,
        pdo_actual_velocity_ptr, ho, hi, poke16, peek32, emit, Sleep, UpdateStaticText, hr,
        write_sdo_u16, write_sdo_s32, read_sdo_s32, ec_SDOwrite, ec_SDOread, DRIVE_SLAVE,
        isImageLoad]

/-- With the inputs mapped at `q`, the one call of `UpdateStaticText` in a cycle of v2
hands over the reading tagged "(pdo)" of the value loaded at `q + 2`: the texts set are
those of that call. -/
theorem cycle_v2_pdo_text (env : Env) (s : St) (q : Nat)
    (hi : env.inputs DRIVE_SLAVE = some q) :
    (newEvents s (cycle_v2 env s)).filter isText =
      textEvents env.hStaticRPM
        (rpmText (toS32 (load32le (cycle_v2 env s).ec_IOmap (q + 2))) true) := by
  simp only [DRIVE_SLAVE] at hi
  cases hr : GetDlgItem env.hStaticRPM <;> cases ho : env.outputs 1 <;>
    simp [newEvents, cycle_v2, velocity_v2, read_velocity_v2, outputs_v2, ec_send_processdata,
      ec_receive_processdata, pdo_controlword_ptr, pdo_target_torque_ptr,
      pdo_actual_velocity_ptr, ho, hi, poke16, peek32, emit, Sleep, UpdateStaticText, hr,
      write_sdo_u16, write_sdo_s32, read_sdo_s32, ec_SDOwrite, ec_SDOread, DRIVE_SLAVE,
      isText, textEvents]

/-! ## Disconnecting (v2) -/

theorem connect_v2_waits (env : Env) (s : St) : (connect_v2 env s).2.waits = s.waits := by
  simp only [connect_v2]
  split_ifs <;> simp [emit, UpdateStaticText_eq]

/-- A bring-up of v2 that succeeds does not write `run_flag`. -/
theorem connect_v2_run_flag (env : Env) (s : St) (hcon : (connect_v2 env s).1 = true) :
    (connect_v2 env s).2.run_flag = s.run_flag := by
  simp only [connect_v2] at hcon ⊢
  split_ifs at hcon ⊢
  simp [emit, UpdateStaticText_eq]

/-- Once `connected_flag` reads false, a connect thread of v2 whose bring-up succeeded leaves
its loop, closes the bus, calls `UpdateStaticText` with "Disconnected" and returns 0; it has
not written `run_flag`. -/
theorem EtherCATThread_v2_disconnect (env : Env) (k : Nat) (s : St)
    (hcon : (connect_v2 env s).1 = true) (hcf : env.connected_flag (s.waits + k) = false) :
    (EtherCATThread_v2 env (k + 1) s).2 = some 0 ∧
    (∃ pre, newEvents s (EtherCATThread_v2 env (k + 1) s).1 =
      pre ++ Event.ec_close :: textEvents env.hStaticState "Disconnected") ∧
    (EtherCATThread_v2 env (k + 1) s).1.run_flag = s.run_flag := by
  have hw : (wait_v2 env (k + 1) (connect_v2 env s).2).2 = true :=
    wait_v2_returns env k _ (by rw [connect_v2_waits]; exact hcf)
  obtain ⟨l₀, h₀⟩ := connect_v2_extends env s
  obtain ⟨l₁, h₁, _, _, hr⟩ := wait_v2_extends env (k + 1) (connect_v2 env s).2
  have hst : EtherCATThread_v2 env (k + 1) s =
      (UpdateStaticText (emit (wait_v2 env (k + 1) (connect_v2 env s).2).1 Event.ec_close)
        env.hStaticState "Disconnected", some 0) := by
    simp only [EtherCATThread_v2, if_pos hcon, if_pos hw]
  rw [hst]
  refine ⟨rfl, ⟨l₀ ++ l₁, ?_⟩, ?_⟩
  · have ht : (UpdateStaticText (emit (wait_v2 env (k + 1) (connect_v2 env s).2).1 Event.ec_close)
        env.hStaticState "Disconnected").trace =
        s.trace ++ (l₀ ++ l₁ ++ Event.ec_close :: textEvents env.hStaticState "Disconnected") := by
      simp [UpdateStaticText_eq, emit, h₁, h₀]
    exact newEvents_of_append ht
  · simp [UpdateStaticText_eq, emit, hr, connect_v2_run_flag env s hcon]

/-! ## The flags of the simulator -/

theorem WindowProc_flags (g : Sim) (m : Msg) :
    (g.isConnected = true → (WindowProc g m).isConnected = true) ∧
    ((g.inOperation = true → g.isConnected = true) →
      (WindowProc g m).inOperation = true → (WindowProc g m).isConnected = true) := by
  cases m with
  | WM_COMMAND id =>
    simp only [WindowProc, ConnectToServo]
    split_ifs <;> simp_all [Sim.emit]
  | WM_CLOSE =>
    simp only [WindowProc]
    split_ifs <;> simp_all [Sim.emit]
  | _ => simp [WindowProc, Sim.emit]

theorem WindowProc_main_flags (g : Sim) (m : Msg) :
    (g.isConnected = true → (WindowProc_main g m).isConnected = true) ∧
    ((g.inOperation = true → g.isConnected = true) →
      (WindowProc_main g m).inOperation = true → (WindowProc_main g m).isConnected = true) := by
  cases m with
  | WM_COMMAND id =>
    simp only [WindowProc_main, ConnectToServo]
    split_ifs <;> simp_all [Sim.emit]
  | WM_CLOSE =>
    simp only [WindowProc_main]
    split_ifs <;> simp_all [Sim.emit]
  | _ => simp [WindowProc_main, Sim.emit]

theorem SimulationThreadProc_turn_flags (fl : SimFloat) (g : Sim) :
    (SimulationThreadProc_turn fl g).isConnected = g.isConnected ∧
    ((SimulationThreadProc_turn fl g).inOperation = true → g.inOperation = true) := by
  simp only [SimulationThreadProc_turn]
  split_ifs <;> simp_all [Sim.emit]

theorem SimulationThreadProc_turn_main_flags (fl : SimFloat) (g : Sim) :
    (SimulationThreadProc_turn_main fl g).isConnected = g.isConnected ∧
    ((SimulationThreadProc_turn_main fl g).inOperation = true → g.inOperation = true) := by
  simp only [SimulationThreadProc_turn_main]
  split_ifs <;> simp_all [Sim.emit]

/-- One step of `main_new.c` keeps `isConnected` set and keeps the invariant that
`inOperation` implies `isConnected`. -/
theorem simStep_flags (fl : SimFloat) (g : Sim) (i : SimInput) :
    (g.isConnected = true → (simStep fl g i).isConnected = true) ∧
    ((g.inOperation = true → g.isConnected = true) →
      (simStep fl g i).inOperation = true → (simStep fl g i).isConnected = true) := by
  cases i with
  | message m => exact WindowProc_flags g m
  | turn =>
    obtain ⟨hc, ho⟩ := SimulationThreadProc_turn_flags fl g
    exact ⟨fun h => by simp only [simStep]; rw [hc]; exact h,
      fun hinv h => by simp only [simStep] at h ⊢; rw [hc]; exact hinv (ho h)⟩

/-- One step of `main.c` keeps `isConnected` set and keeps the invariant that `inOperation`
implies `isConnected`. -/
theorem simStep_main_flags (fl : SimFloat) (g : Sim) (i : SimInput) :
    (g.isConnected = true → (simStep_main fl g i).isConnected = true) ∧
    ((g.inOperation = true → g.isConnected = true) →
      (simStep_main fl g i).inOperation = true → (simStep_main fl g i).isConnected = true) := by
  cases i with
  | message m => exact WindowProc_main_flags g m
  | turn =>
    obtain ⟨hc, ho⟩ := SimulationThreadProc_turn_main_flags fl g
    exact ⟨fun h => by simp only [simStep_main]; rw [hc]; exact h,
      fun hinv h => by simp only [simStep_main] at h ⊢; rw [hc]; exact hinv (ho h)⟩

theorem simRun_flags (fl : SimFloat) (inputs : List SimInput) :
    ∀ g : Sim,
      (g.isConnected = true → (simRun fl g inputs).isConnected = true) ∧
      ((g.inOperation = true → g.isConnected = true) →
        (simRun fl g inputs).inOperation = true → (simRun fl g inputs).isConnected = true) := by
  induction inputs with
  | nil => intro g; exact ⟨fun h => h, fun hinv h => hinv h⟩
  | cons i rest ih =>
    intro g
    obtain ⟨hc, hi⟩ := simStep_flags fl g i
    obtain ⟨hc', hi'⟩ := ih (simStep fl g i)
    exact ⟨fun h => hc' (hc h), fun hinv => hi' (hi hinv)⟩

theorem simRun_main_flags (fl : SimFloat) (inputs : List SimInput) :
    ∀ g : Sim,
      (g.isConnected = true → (simRun_main fl g inputs).isConnected = true) ∧
      ((g.inOperation = true → g.isConnected = true) →
        (simRun_main fl g inputs).inOperation = true →
          (simRun_main fl g inputs).isConnected = true) := by
  induction inputs with
  | nil => intro g; exact ⟨fun h => h, fun hinv h => hinv h⟩
  | cons i rest ih =>
    intro g
    obtain ⟨hc, hi⟩ := simStep_main_flags fl g i
    obtain ⟨hc', hi'⟩ := ih (simStep_main fl g i)
    exact ⟨fun h => hc' (hc h), fun hinv => hi' (hi hinv)⟩

/-! ## C1: zero torque on stop -/

/-- C1, defect of v2: with the outputs mapped, one running cycle and then the stop request,
`RunLoop` returns with exit code 0 after these events. The last process-data frame carries
torque 500 (bytes F4 01); the 0 is stored into the image only after that frame, no frame
follows, and no SDO write of object 0x6071 is issued, so no torque 0 reaches the drive.
(The two calls of `UpdateStaticText` leave no event: no child window has the handle of
`hStaticRPM` as its identifier.) -/
theorem RunLoop_mapped_zero_torque_not_committed :
    (RunLoop mappedEnv 2 idle).2 = some 0 ∧
    (RunLoop mappedEnv 2 idle).1.trace =
      [Event.SDOwrite 1 0x6060 0 1 10, Event.Sleep 20,
       Event.SDOwrite 1 0x6040 0 2 6, Event.Sleep 50,
       Event.SDOwrite 1 0x6040 0 2 7, Event.Sleep 50,
       Event.SDOwrite 1 0x6040 0 2 15, Event.Sleep 100,
       Event.send_processdata (some [0, 0, 0, 0]), Event.receive_processdata,
       Event.store16 0 15, Event.store16 2 500,
       Event.load32 18, Event.Sleep 50,
       Event.send_processdata (some [0x0F, 0x00, 0xF4, 0x01]), Event.receive_processdata,
       Event.store16 2 0,
       Event.SDOwrite 1 0x6040 0 2 2, Event.Sleep 50,
       Event.SDOread 1 0x606C 0 4] ∧
    zeroTorqueCommitted (pdo_target_torque_ptr mappedEnv DRIVE_SLAVE)
      (RunLoop mappedEnv 2 idle).1.trace = false := by
  decide

/-! ## C2: the torque setpoint -/

/-- C2 as stated fails: with ceiling 1000 and wished setpoint 5000 the specification's clamp
gives 1000, but a cycle of v2 writes 500 as target torque. -/
theorem torque_written_is_not_the_clamp :
    ¬ ∀ v ∈ (newEvents idle (cycle_v2 quietEnv idle)).filterMap
        (torqueOf (pdo_target_torque_ptr quietEnv DRIVE_SLAVE)), v = spec_clamp 5000 1000 := by
  decide

/-- C2 amended: whatever the world answers, a running cycle writes exactly one target
torque, the constant `torque_set` of the source: 1000 in v1 (through SDO), 500 in v2
(through the image when the outputs are mapped, through SDO otherwise). -/
theorem torque_written_is_constant (env : Env) (s : St) :
    (newEvents s (cycle_v1 env s)).filterMap (torqueOf none) = [torque_set_v1] ∧
    (newEvents s (cycle_v2 env s)).filterMap
      (torqueOf (pdo_target_torque_ptr env DRIVE_SLAVE)) = [torque_set_v2] := by
  constructor
  · rw [newEvents_of_append (cycle_v1_trace env s)]
    simp [torqueOf, IDX_TARGET_TORQUE, torque_set_v1]
  · exact cycle_v2_torque env s

/-! ## C3: reporting the drive as enabled -/

/-- C3 as stated fails: on a bus where every SDO call fails, v1 never observes a status
word, yet it reports the drive as enabled and writes torque 1000; v2 never observes one
either and writes torque 500. -/
theorem enabled_reported_without_status_word :
    (EtherCATThread_v1 deafEnv 2 idle).1.trace.any isStatusRead = false ∧
    Event.SetText Control.rpm "Drive enabled - applying torque setpoint..."
      ∈ (EtherCATThread_v1 deafEnv 2 idle).1.trace ∧
    Event.SDOwrite 1 0x6071 0 4 1000 ∈ (EtherCATThread_v1 deafEnv 2 idle).1.trace ∧
    (RunLoop deafEnv 2 idle).1.trace.any isStatusRead = false ∧
    Event.SDOwrite 1 0x6071 0 4 500 ∈ (RunLoop deafEnv 2 idle).1.trace := by
  decide

/-- C3 amended: neither variant ever reads the status word (object 0x6041), however long
it runs and whatever the world answers. v1 reports the drive as enabled as soon as the bus
has come up and the enable sequence is through, and both variants run the first torque
cycle right after the enable sequence whenever `run_flag` then reads true. -/
theorem enabled_reported_unconditionally (env : Env) (s : St) (fuel : Nat) :
    (∀ e ∈ newEvents s (EtherCATThread_v1 env fuel s).1, isStatusRead e = false) ∧
    (∀ e ∈ newEvents s (RunLoop env fuel s).1, isStatusRead e = false) ∧
    ((connect_v1 env s).1 = true →
      Event.SetText Control.rpm "Drive enabled - applying torque setpoint..."
        ∈ newEvents s (EtherCATThread_v1 env fuel s).1) ∧
    ((connect_v1 env s).1 = true → env.run_flag s.polls = true →
      ∃ rest, (EtherCATThread_v1 env (fuel + 1) s).1.trace =
        (cycle_v1 env { enable_v1 env (connect_v1 env s).2 with polls := s.polls + 1 }).trace
          ++ rest) ∧
    (env.run_flag s.polls = true →
      ∃ rest, (RunLoop env (fuel + 1) s).1.trace =
        (cycle_v2 env { enable_v2 env s with polls := s.polls + 1 }).trace ++ rest) := by
  refine ⟨fun e he => (EtherCATThread_v1_noStatusNoReset env fuel s e he).1,
    fun e he => (RunLoop_noStatusNoReset env fuel s e he).1, ?_,
    fun hcon hf => EtherCATThread_v1_first_cycle env fuel s hcon hf,
    fun hf => RunLoop_first_cycle env fuel s hf⟩
  intro hcon
  obtain ⟨rest, hr⟩ := EtherCATThread_v1_enable_first env fuel s hcon
  obtain ⟨l₀, h₀⟩ := connect_v1_extends env s
  rw [enable_v1_trace, h₀] at hr
  simp only [List.append_assoc] at hr
  rw [newEvents_of_append hr]
  simp

/-! ## C4: the three control words of the enable sequence -/

/-- C4: in both variants, whatever the writes return, the enable sequence commands exactly
the control words shutdown (6), switch on (7), enable operation (15), in this order and
each once, as 2-byte SDO writes to object 0x6040 sub-index 0, and writes no torque. Every
run of the thread has the enable sequence as a prefix of what follows the bus bring-up, and
the bring-up of v1 issues no SDO call and touches no process data: so the three writes come
before the first torque write. -/
theorem enable_sequence_control_words (env : Env) (s : St) (fuel : Nat) :
    (∀ p, (newEvents s (enable_v1 env s)).filterMap (controlWordOf p) = [6, 7, 15] ∧
      (newEvents s (enable_v1 env s)).filterMap (torqueOf p) = []) ∧
    (∀ p, (newEvents s (enable_v2 env s)).filterMap (controlWordOf p) = [6, 7, 15] ∧
      (newEvents s (enable_v2 env s)).filterMap (torqueOf p) = []) ∧
    (newEvents s (enable_v1 env s)).filter isSDO =
      [Event.SDOwrite DRIVE_SLAVE IDX_MODE_OF_OPERATION 0 1 10,
       Event.SDOwrite DRIVE_SLAVE IDX_CONTROLWORD 0 2 CW_SHUTDOWN,
       Event.SDOwrite DRIVE_SLAVE IDX_CONTROLWORD 0 2 CW_SWITCH_ON,
       Event.SDOwrite DRIVE_SLAVE IDX_CONTROLWORD 0 2 CW_ENABLE_OPERATION] ∧
    (newEvents s (enable_v2 env s)).filter isSDO =
      [Event.SDOwrite DRIVE_SLAVE IDX_MODE_OF_OPERATION 0 1 10,
       Event.SDOwrite DRIVE_SLAVE IDX_CONTROLWORD 0 2 CW_SHUTDOWN,
       Event.SDOwrite DRIVE_SLAVE IDX_CONTROLWORD 0 2 CW_SWITCH_ON,
       Event.SDOwrite DRIVE_SLAVE IDX_CONTROLWORD 0 2 CW_ENABLE_OPERATION] ∧
    (∃ rest, (RunLoop env fuel s).1.trace = (enable_v2 env s).trace ++ rest) ∧
    ((connect_v1 env s).1 = true →
      ∃ rest, (EtherCATThread_v1 env fuel s).1.trace =
        (enable_v1 env (connect_v1 env s).2).trace ++ rest) ∧
    (∀ e ∈ newEvents s (connect_v1 env s).2,
      isSDO e = false ∧ isPD e = false ∧ isImageAccess e = false) :=
  ⟨fun p => enable_v1_words env s p, fun p => enable_v2_words env s p, enable_v1_sdo env s,
    enable_v2_sdo env s, RunLoop_enable_first env fuel s,
    fun hcon => EtherCATThread_v1_enable_first env fuel s hcon, connect_v1_events env s⟩

/-! ## C5: a drive in Fault -/

/-- C5 as stated fails: the drive of `faultEnv` answers every status-word read with 0x0008
(Fault) and reports it in its input block. Both threads still return with exit code 0;
the control words they command contain no fault reset (0x0080) and no second
shutdown, switch on, enable operation round, and the torque loop is entered (torque 500,
respectively 1000, is written before the 0 of the stop). -/
theorem fault_is_not_reset :
    faultEnv.SDOread [Event.SDOread DRIVE_SLAVE IDX_STATUSWORD 0 2] = (1, some 8) ∧
    (RunLoop faultEnv 2 idle).2 = some 0 ∧
    (RunLoop faultEnv 2 idle).1.trace.filterMap
      (controlWordOf (pdo_controlword_ptr faultEnv DRIVE_SLAVE)) = [6, 7, 15, 15, 2] ∧
    (RunLoop faultEnv 2 idle).1.trace.filterMap
      (torqueOf (pdo_target_torque_ptr faultEnv DRIVE_SLAVE)) = [500, 0] ∧
    (EtherCATThread_v1 faultEnv 2 idle).2 = some 0 ∧
    (EtherCATThread_v1 faultEnv 2 idle).1.trace.filterMap (controlWordOf none)
      = [6, 7, 15, 2, 6] ∧
    (EtherCATThread_v1 faultEnv 2 idle).1.trace.filterMap (torqueOf none) = [1000, 0] := by
  decide

/-- C5 amended: whatever state the drive reports, neither variant reads the status word or
commands the fault-reset control word (0x0080), at any point of any run; the enable
sequence commands shutdown, switch on, enable operation once each, without retry; enable
never fails (`RunLoop` only returns 0, v1 `EtherCATThread` returns 1 only when the bus
bring-up failed); and the first torque cycle follows the enable sequence whenever
`run_flag` then reads true. -/
theorem enable_never_resets_fault (env : Env) (s : St) (fuel : Nat) :
    (∀ e ∈ newEvents s (EtherCATThread_v1 env fuel s).1, noStatusNoReset e) ∧
    (∀ e ∈ newEvents s (RunLoop env fuel s).1, noStatusNoReset e) ∧
    (∀ p, (newEvents s (enable_v1 env s)).filterMap (controlWordOf p) = [6, 7, 15]) ∧
    (∀ p, (newEvents s (enable_v2 env s)).filterMap (controlWordOf p) = [6, 7, 15]) ∧
    (∀ c, (RunLoop env fuel s).2 = some c → c = 0) ∧
    (∀ c, (EtherCATThread_v1 env fuel s).2 = some c → (c = 0 ↔ (connect_v1 env s).1 = true)) ∧
    ((connect_v1 env s).1 = true → env.run_flag s.polls = true →
      ∃ rest, (EtherCATThread_v1 env (fuel + 1) s).1.trace =
        (cycle_v1 env { enable_v1 env (connect_v1 env s).2 with polls := s.polls + 1 }).trace
          ++ rest) ∧
    (env.run_flag s.polls = true →
      ∃ rest, (RunLoop env (fuel + 1) s).1.trace =
        (cycle_v2 env { enable_v2 env s with polls := s.polls + 1 }).trace ++ rest) :=
  ⟨EtherCATThread_v1_noStatusNoReset env fuel s, RunLoop_noStatusNoReset env fuel s,
    fun p => (enable_v1_words env s p).1, fun p => (enable_v2_words env s p).1,
    fun c h => (RunLoop_exit env fuel s c h).1,
    fun c h => (EtherCATThread_v1_exit env fuel s c h).1,
    fun hcon hf => EtherCATThread_v1_first_cycle env fuel s hcon hf,
    fun hf => RunLoop_first_cycle env fuel s hf⟩

/-! ## C6: the mode-of-operation write -/

/-- C6 as stated fails for v2: on a bus where every SDO call fails, the mode-of-operation
write of v2 fails and the enable sequence publishes no text at all; the whole run, which
returns with exit code 0, sets no text. -/
theorem mode_write_failure_silent_in_v2 :
    deafEnv.SDOwrite [Event.SDOwrite DRIVE_SLAVE IDX_MODE_OF_OPERATION 0 1 10] ≤ 0 ∧
    (newEvents idle (enable_v2 deafEnv idle)).filterMap textOf = [] ∧
    (RunLoop deafEnv 2 idle).2 = some 0 ∧
    (RunLoop deafEnv 2 idle).1.trace.filterMap textOf = [] := by
  decide

/-- C6 amended: in both variants the SDO calls of the enable sequence are, for either
outcome of any of them, the 1-byte write of 10 to object 0x6060 sub-index 0 followed by the
writes of shutdown, switch on and enable operation to object 0x6040. When the mode write
returns a work counter `≤ 0`, v1 publishes the warning text and goes on; v2 ignores the
result and its enable sequence publishes no text. -/
theorem enable_mode_write (env : Env) (s : St) :
    (newEvents s (enable_v1 env s)).filter isSDO =
      [Event.SDOwrite DRIVE_SLAVE IDX_MODE_OF_OPERATION 0 1 10,
       Event.SDOwrite DRIVE_SLAVE IDX_CONTROLWORD 0 2 CW_SHUTDOWN,
       Event.SDOwrite DRIVE_SLAVE IDX_CONTROLWORD 0 2 CW_SWITCH_ON,
       Event.SDOwrite DRIVE_SLAVE IDX_CONTROLWORD 0 2 CW_ENABLE_OPERATION] ∧
    (newEvents s (enable_v2 env s)).filter isSDO =
      [Event.SDOwrite DRIVE_SLAVE IDX_MODE_OF_OPERATION 0 1 10,
       Event.SDOwrite DRIVE_SLAVE IDX_CONTROLWORD 0 2 CW_SHUTDOWN,
       Event.SDOwrite DRIVE_SLAVE IDX_CONTROLWORD 0 2 CW_SWITCH_ON,
       Event.SDOwrite DRIVE_SLAVE IDX_CONTROLWORD 0 2 CW_ENABLE_OPERATION] ∧
    (Event.SetText Control.rpm "Failed to write Mode of Operation (0x6060)"
        ∈ newEvents s (enable_v1 env s) ↔
      (write_sdo_u8 env (SetRPMText s "Operational - configuring drive via SDOs...")
        DRIVE_SLAVE IDX_MODE_OF_OPERATION 0 10).1 ≤ 0) ∧
    (newEvents s (enable_v2 env s)).filterMap textOf = [] := by
  refine ⟨enable_v1_sdo env s, enable_v2_sdo env s, ?_, ?_⟩
  · rw [newEvents_of_append (enable_v1_trace env s)]
    simp only [write_sdo_u8, ec_SDOwrite, SetRPMText, emit, DRIVE_SLAVE, IDX_MODE_OF_OPERATION]
    split_ifs with h <;> simp_all
  · rw [newEvents_of_append (enable_v2_trace env s)]
    simp [textOf]

/-! ## C7 to C10: one cycle of v2 -/

/-- C7: a cycle of v2 performs exactly one send/receive pair, in that order; its SDO calls
are the control-word and torque writes exactly when the output pointer is null, followed
by the velocity read exactly when the input pointer is null, and nothing else. -/
theorem cycle_v2_channel_use (env : Env) (s : St) :
    (newEvents s (cycle_v2 env s)).filter isPD =
      [Event.send_processdata ((env.outputs DRIVE_SLAVE).map fun a =>
          [s.ec_IOmap a, s.ec_IOmap (a + 1), s.ec_IOmap (a + 2), s.ec_IOmap (a + 3)]),
       Event.receive_processdata] ∧
    (newEvents s (cycle_v2 env s)).filter isSDO =
      (if env.outputs DRIVE_SLAVE = none then
        [Event.SDOwrite DRIVE_SLAVE IDX_CONTROLWORD 0 2 CW_ENABLE_OPERATION,
         Event.SDOwrite DRIVE_SLAVE IDX_TARGET_TORQUE 0 4 torque_set_v2] else []) ++
      (if env.inputs DRIVE_SLAVE = none then
        [Event.SDOread DRIVE_SLAVE IDX_ACTUAL_VELOCITY 0 4] else []) := by
  simp only [DRIVE_SLAVE]
  cases hr : GetDlgItem env.hStaticRPM <;> cases ho : env.outputs 1 <;> cases hi : env.inputs 1 <;>
    simp [newEvents, cycle_v2, velocity_v2, read_velocity_v2, outputs_v2, ec_send_processdata,
      ec_receive_processdata, pdo_controlword_ptr, pdo_target_torque_ptr,
      pdo_actual_velocity_ptr, ho, hi, poke16, peek32, emit, Sleep, UpdateStaticText, hr,
      write_sdo_u16, write_sdo_s32, read_sdo_s32, ec_SDOwrite, ec_SDOread, DRIVE_SLAVE,
      IDX_CONTROLWORD, IDX_TARGET_TORQUE, IDX_ACTUAL_VELOCITY, CW_ENABLE_OPERATION,
      torque_set_v2, toS32, toU16] <;>
    (try split_ifs) <;> simp [isPD, isSDO]

/-- C8, defect of v2: with a null input pointer and an SDO read that succeeds (work counter
1) and delivers velocity 0, a cycle publishes no text at all, so no reading tagged
"(sdo)": the display keeps whatever it showed before. -/
theorem cycle_v2_zero_velocity_not_published :
    quietEnv.inputs DRIVE_SLAVE = none ∧
    read_sdo_s32 quietEnv idle DRIVE_SLAVE IDX_ACTUAL_VELOCITY 0 0 =
      (1, 0, emit idle (Event.SDOread 1 0x606C 0 4)) ∧
    newEvents idle (cycle_v2 quietEnv idle) =
      [Event.send_processdata none, Event.receive_processdata,
       Event.SDOwrite 1 0x6040 0 2 15, Event.SDOwrite 1 0x6071 0 4 500,
       Event.SDOread 1 0x606C 0 4, Event.Sleep 50] ∧
    Event.SetText Control.rpm (rpmText 0 false) ∉ newEvents idle (cycle_v2 quietEnv idle) := by
  refine ⟨rfl, rfl, by decide, by decide⟩

/-- C9 as stated fails: in the first cycle of a run with mapped outputs the exchange comes
first and transmits the four zero bytes the image held, not control word 0x000F and torque
500 (bytes 0F 00 F4 01); the two are stored only after the receive. -/
theorem first_exchange_precedes_staging :
    everySendCarries [0x0F, 0x00, 0xF4, 0x01] (newEvents idle (cycle_v2 mappedEnv idle)) = false ∧
    (newEvents idle (cycle_v2 mappedEnv idle)).take 4 =
      [Event.send_processdata (some [0, 0, 0, 0]), Event.receive_processdata,
       Event.store16 0 0x000F, Event.store16 2 500] := by
  decide

/-- C9 amended: in every cycle of v2 with the outputs mapped at `p`, the exchange comes
first and transmits the output bytes the image holds on entry to the cycle; control word
0x000F and torque 500 are stored after the receive has returned; nothing that follows in
the cycle is an exchange or a store, so the velocity is read after the exchange. The bytes
stored are those the exchange of the next cycle transmits. -/
theorem cycle_v2_exchange_then_stage (env : Env) (s : St) (p : Nat)
    (ho : env.outputs DRIVE_SLAVE = some p) :
    (∃ rest, newEvents s (cycle_v2 env s) =
        Event.send_processdata
          (some [s.ec_IOmap p, s.ec_IOmap (p + 1), s.ec_IOmap (p + 2), s.ec_IOmap (p + 3)]) ::
        Event.receive_processdata :: Event.store16 p 0x000F :: Event.store16 (p + 2) 500 ::
        rest ∧
      ∀ e ∈ rest, isPD e = false ∧ ∀ a w, e ≠ Event.store16 a w) ∧
    (∀ t : St, t.ec_IOmap = (cycle_v2 env s).ec_IOmap →
      (newEvents t (cycle_v2 env t)).head? =
        some (Event.send_processdata (some [0x0F, 0x00, 0xF4, 0x01]))) := by
  constructor
  · obtain ⟨rest, h, hr⟩ := cycle_v2_shape env s
    rw [ho] at h
    exact ⟨rest, newEvents_of_append h, fun e he => ⟨(hr e he).1, (hr e he).2.1⟩⟩
  · intro t ht
    obtain ⟨h0, h1, h2, h3⟩ := cycle_v2_image env s p ho
    rw [cycle_v2_head, ho, ht, Option.map_some', h0, h1, h2, h3]

/-- The instance of `cycle_v2_exchange_then_stage` in `mappedEnv`, outputs at offset 0,
from the zeroed image: the first frame carries four zero bytes, the next one 0F 00 F4 01. -/
theorem cycle_v2_exchange_then_stage_witness :
    mappedEnv.outputs DRIVE_SLAVE = some 0 ∧
    ((∃ rest, newEvents idle (cycle_v2 mappedEnv idle) =
        Event.send_processdata
          (some [idle.ec_IOmap 0, idle.ec_IOmap (0 + 1), idle.ec_IOmap (0 + 2),
            idle.ec_IOmap (0 + 3)]) ::
        Event.receive_processdata :: Event.store16 0 0x000F :: Event.store16 (0 + 2) 500 ::
        rest ∧
      ∀ e ∈ rest, isPD e = false ∧ ∀ a w, e ≠ Event.store16 a w) ∧
    (∀ t : St, t.ec_IOmap = (cycle_v2 mappedEnv idle).ec_IOmap →
      (newEvents t (cycle_v2 mappedEnv t)).head? =
        some (Event.send_processdata (some [0x0F, 0x00, 0xF4, 0x01])))) :=
  ⟨rfl, cycle_v2_exchange_then_stage mappedEnv idle 0 rfl⟩

/-- C10: every cycle of v2 commands exactly one control word, enable operation (0x000F).
With the output pointer at `p` it is stored at bytes `p`, `p + 1` of the image; with a null
output pointer it is written to object 0x6040 sub-index 0 through the parameter channel.
However long the loop runs, every control word it commands is 0x000F. -/
theorem cycle_v2_control_word (env : Env) (s : St) :
    (newEvents s (cycle_v2 env s)).filterMap
        (controlWordOf (pdo_controlword_ptr env DRIVE_SLAVE)) = [0x000F] ∧
    (∀ p, env.outputs DRIVE_SLAVE = some p →
      Event.store16 p 0x000F ∈ newEvents s (cycle_v2 env s) ∧
      (cycle_v2 env s).ec_IOmap p = 0x0F ∧ (cycle_v2 env s).ec_IOmap (p + 1) = 0x00) ∧
    (env.outputs DRIVE_SLAVE = none →
      Event.SDOwrite DRIVE_SLAVE IDX_CONTROLWORD 0 2 0x000F ∈ newEvents s (cycle_v2 env s)) ∧
    (∀ fuel, ∀ e ∈ newEvents s (loop_v2 env fuel s).1,
      ∀ w, controlWordOf (pdo_controlword_ptr env DRIVE_SLAVE) e = some w → w = 0x000F) := by
  refine ⟨cycle_v2_words env s, ?_, ?_, ?_⟩
  · intro p ho
    obtain ⟨rest, h, _⟩ := cycle_v2_shape env s
    rw [ho] at h
    rw [newEvents_of_append h]
    exact ⟨by simp, (cycle_v2_image env s p ho).1, (cycle_v2_image env s p ho).2.1⟩
  · intro ho
    obtain ⟨rest, h, _⟩ := cycle_v2_shape env s
    rw [ho] at h
    rw [newEvents_of_append h]
    simp [DRIVE_SLAVE, IDX_CONTROLWORD]
  · intro fuel
    refine loop_v2_forall env
      (fun e => ∀ w, controlWordOf (pdo_controlword_ptr env DRIVE_SLAVE) e = some w → w = 0x000F)
      ?_ fuel s
    intro u e he w hw
    have hmem : w ∈ (newEvents u (cycle_v2 env u)).filterMap
        (controlWordOf (pdo_controlword_ptr env DRIVE_SLAVE)) :=
      List.mem_filterMap.2 ⟨e, he, hw⟩
    rw [cycle_v2_words] at hmem
    simpa [CW_ENABLE_OPERATION] using hmem

/-! ## C11: the connect thread of v2 -/

/-- C11, defect of v2: however long the connect thread of v2 is followed, the
`connected_flag` it leaves is true exactly when `ec_init` succeeded, `ec_config_init`
returned a positive count and the state of the drive slave is OPERATIONAL after the state
check; on each of the three failures the thread returns 1 with `connected_flag` and
`run_flag` false after exactly these events, `ec_close` last on the two failures after a
successful `ec_init`. The failure text is handed to `UpdateStaticText` with the window
handle of `hStaticState` where the identifier of the control (21) is expected: unless a
child window has that number as its identifier, no run of the thread sets any text, and on
a bus where `ec_init` fails the thread returns 1 having set no text at all. -/
theorem connect_v2_failure_sets_no_text (env : Env) (s : St) (fuel : Nat) :
    ((EtherCATThread_v2 env fuel s).1.connected_flag = true ↔
      (env.ec_init ≠ 0 ∧ 0 < env.ec_config_init ∧ env.slave_state = EC_STATE_OPERATIONAL)) ∧
    (env.ec_init = 0 →
      (EtherCATThread_v2 env fuel s).2 = some 1 ∧
      (EtherCATThread_v2 env fuel s).1.connected_flag = false ∧
      (EtherCATThread_v2 env fuel s).1.run_flag = false ∧
      newEvents s (EtherCATThread_v2 env fuel s).1 =
        Event.ec_init env.ifname ::
          textEvents env.hStaticState
            ("ec_init('" ++ env.ifname ++ "') failed. Check interface name and cable.")) ∧
    (env.ec_init ≠ 0 → env.ec_config_init ≤ 0 →
      (EtherCATThread_v2 env fuel s).2 = some 1 ∧
      (EtherCATThread_v2 env fuel s).1.connected_flag = false ∧
      (EtherCATThread_v2 env fuel s).1.run_flag = false ∧
      newEvents s (EtherCATThread_v2 env fuel s).1 =
        [Event.ec_init env.ifname, Event.ec_config_init] ++
          textEvents env.hStaticState "No slaves found or ec_config_init failed" ++
          [Event.ec_close]) ∧
    (env.ec_init ≠ 0 → 0 < env.ec_config_init → env.slave_state ≠ EC_STATE_OPERATIONAL →
      (EtherCATThread_v2 env fuel s).2 = some 1 ∧
      (EtherCATThread_v2 env fuel s).1.connected_flag = false ∧
      (EtherCATThread_v2 env fuel s).1.run_flag = false ∧
      newEvents s (EtherCATThread_v2 env fuel s).1 =
        [Event.ec_init env.ifname, Event.ec_config_init] ++
          textEvents env.hStaticState ("Found " ++ toString env.ec_slavecount ++ " slaves") ++
          [Event.ec_config_map, Event.ec_configdc,
           Event.ec_statecheck 0 EC_STATE_SAFE_OP, Event.ec_writestate 0,
           Event.ec_statecheck 0 EC_STATE_OPERATIONAL] ++
          textEvents env.hStaticState "Drive failed to reach OPERATIONAL state" ++
          [Event.ec_close]) ∧
    (GetDlgItem env.hStaticState = none →
      ∀ e ∈ newEvents s (EtherCATThread_v2 env fuel s).1, isText e = false) ∧
    (noBusEnv.ec_init = 0 ∧ GetDlgItem noBusEnv.hStaticState = none ∧
      (EtherCATThread_v2 noBusEnv 1 idle).2 = some 1 ∧
      (EtherCATThread_v2 noBusEnv 1 idle).1.trace = [Event.ec_init "eth0"]) := by
  refine ⟨?_, ?_, ?_, ?_, EtherCATThread_v2_no_text env fuel s, by decide⟩
  · rw [EtherCATThread_v2_flag, connect_v2_ok]
  · intro h1
    simp [EtherCATThread_v2, connect_v2, h1, newEvents, emit, UpdateStaticText_eq]
  · intro h1 h2
    simp [EtherCATThread_v2, connect_v2, h1, h2, newEvents, emit, UpdateStaticText_eq]
  · intro h1 h2 h3
    have h2' : ¬ env.ec_config_init ≤ 0 := by omega
    simp [EtherCATThread_v2, connect_v2, h1, h2', h3, newEvents, emit, UpdateStaticText_eq]

/-! ## C12: the start command -/

/-- C12 as stated fails: in v1 the start command, given before anything was connected, sets
`run_flag` and starts the thread; in v2 a connected controller whose drive has not been
through the enable sequence yet (that sequence is the first thing `RunLoop` does) enters
Running on start. -/
theorem start_enters_running_unready :
    (WndProc_v1 true freshGui (Msg.WM_COMMAND 1)).run_flag = true ∧
    (WndProc_v1 true freshGui (Msg.WM_COMMAND 1)).log =
      [GuiEvent.CreateThread ThreadProc.EtherCATThread] ∧
    (WndProc_v2 true { freshGui with connected_flag := true } (Msg.WM_COMMAND 11)).run_flag
      = true ∧
    (WndProc_v2 true { freshGui with connected_flag := true } (Msg.WM_COMMAND 11)).log =
      [GuiEvent.CreateThread ThreadProc.RunLoop,
       GuiEvent.SetText Control.state "Running..."] := by
  decide

/-- C12 amended: what gates the start command is the connection, not the state of the
drive. In v2, start with `connected_flag` false changes nothing (no flag, no thread, no
text); start with `connected_flag` true and `run_flag` false sets `run_flag` and creates
`RunLoop`. In the simulator, start with `isConnected` false leaves `inOperation` alone and
reports "Not connected - Please connect first"; with `isConnected` true it sets
`inOperation`. In v1 start has no such gate: with `run_flag` false it sets `run_flag` and
creates `EtherCATThread`. -/
theorem start_command (created : Bool) (g : Gui) (m : Sim) :
    (g.connected_flag = false → WndProc_v2 created g (Msg.WM_COMMAND 11) = g) ∧
    (g.connected_flag = true → g.run_flag = false →
      (WndProc_v2 created g (Msg.WM_COMMAND 11)).run_flag = true ∧
      (WndProc_v2 created g (Msg.WM_COMMAND 11)).log =
        g.log ++ [GuiEvent.CreateThread ThreadProc.RunLoop,
          GuiEvent.SetText Control.state "Running..."]) ∧
    (m.isConnected = false →
      WindowProc m (Msg.WM_COMMAND IDC_START_BUTTON) =
        m.emit (GuiEvent.SetText Control.state "Not connected - Please connect first") ∧
      (WindowProc m (Msg.WM_COMMAND IDC_START_BUTTON)).inOperation = m.inOperation) ∧
    (m.isConnected = true →
      (WindowProc m (Msg.WM_COMMAND IDC_START_BUTTON)).inOperation = true) ∧
    (g.run_flag = false →
      WndProc_v1 created g (Msg.WM_COMMAND 1) =
        { g with run_flag := true, hThread := created,
                 log := g.log ++ [GuiEvent.CreateThread ThreadProc.EtherCATThread] }) := by
  refine ⟨?_, ?_, ?_, ?_, ?_⟩
  · intro h; simp [WndProc_v2, h]
  · intro h1 h2; simp [WndProc_v2, h1, h2, Gui.emit, Gui.UpdateStaticText, GetDlgItem]
  · intro h; simp [WindowProc, h, IDC_START_BUTTON, IDC_CONNECT_BUTTON, Sim.emit]
  · intro h; simp [WindowProc, h, IDC_START_BUTTON, IDC_CONNECT_BUTTON, Sim.emit]
  · intro h; simp [WndProc_v1, h, Gui.emit]

/-! ## C13: failing channels -/

/-- C13 as stated fails: on a channel where every SDO call returns work counter 0 and every
receive reports a dropped cycle, with no stop request, both threads are still in their loop
after three cycles; they have written the torque setpoint each cycle and neither torque 0
nor quick stop. -/
theorem loop_keeps_cycling_on_failures :
    (∀ tr, stuckEnv.SDOwrite tr ≤ 0 ∧ (stuckEnv.SDOread tr).1 ≤ 0 ∧ (stuckEnv.receive tr).1 ≤ 0) ∧
    (RunLoop stuckEnv 3 idle).2 = none ∧
    (RunLoop stuckEnv 3 idle).1.trace.filterMap (torqueOf none) = [500, 500, 500] ∧
    (RunLoop stuckEnv 3 idle).1.trace.filterMap (controlWordOf none) = [6, 7, 15, 15, 15, 15] ∧
    (EtherCATThread_v1 stuckEnv 3 idle).2 = none ∧
    (EtherCATThread_v1 stuckEnv 3 idle).1.trace.filterMap (torqueOf none)
      = [1000, 1000, 1000] ∧
    (EtherCATThread_v1 stuckEnv 3 idle).1.trace.filterMap (controlWordOf none) = [6, 7, 15] := by
  refine ⟨fun tr => by simp [stuckEnv], ?_⟩
  decide

/-- C13 amended: the running loop of either variant is left exactly when `run_flag` reads
false at a loop test. Whatever the channel calls return, a thread whose `run_flag` read
true at each of `fuel` tests is still in its loop, has written its torque setpoint once
per cycle and has commanded no control word besides those of the enable sequence and (v2)
the enable operation of each cycle: no failure, consecutive or not, forces a
stop-and-disable. -/
theorem loop_left_only_by_run_flag (env : Env) (s : St) (fuel : Nat) :
    ((RunLoop env fuel s).2 = none ↔ ∀ k < fuel, env.run_flag (s.polls + k) = true) ∧
    ((∀ k < fuel, env.run_flag (s.polls + k) = true) →
      (newEvents s (RunLoop env fuel s).1).filterMap
          (torqueOf (pdo_target_torque_ptr env DRIVE_SLAVE)) = List.replicate fuel 500 ∧
      (newEvents s (RunLoop env fuel s).1).filterMap
          (controlWordOf (pdo_controlword_ptr env DRIVE_SLAVE))
        = [6, 7, 15] ++ List.replicate fuel 15) ∧
    ((connect_v1 env s).1 = true →
      ((EtherCATThread_v1 env fuel s).2 = none ↔
        ∀ k < fuel, env.run_flag (s.polls + k) = true)) ∧
    ((connect_v1 env s).1 = true → (∀ k < fuel, env.run_flag (s.polls + k) = true) →
      (newEvents s (EtherCATThread_v1 env fuel s).1).filterMap (torqueOf none)
        = List.replicate fuel 1000 ∧
      (newEvents s (EtherCATThread_v1 env fuel s).1).filterMap (controlWordOf none)
        = [6, 7, 15]) :=
  ⟨RunLoop_running env fuel s, RunLoop_running_commands env fuel s,
    EtherCATThread_v1_running env fuel s,
    fun hcon h => EtherCATThread_v1_running_commands env fuel s none hcon h⟩

/-! ## C14: a dropped process-data cycle -/

/-- C15 as stated fails for v2: its stop path commands quick stop only; no shutdown
follows, in the stop path or anywhere later in the run. -/
theorem stop_v2_issues_no_shutdown :
    (newEvents idle (stop_v2 quietEnv idle)).filterMap
      (controlWordOf (pdo_controlword_ptr quietEnv DRIVE_SLAVE)) = [2] ∧
    (RunLoop quietEnv 1 idle).2 = some 0 ∧
    (RunLoop quietEnv 1 idle).1.trace.filterMap
      (controlWordOf (pdo_controlword_ptr quietEnv DRIVE_SLAVE)) = [6, 7, 15, 2] := by
  decide

/-- C15 amended: after the torque has been zeroed the stop path of v1 writes quick stop
(2) and then shutdown (6) to object 0x6040 sub-index 0, whatever the writes return; the
stop path of v2 commands quick stop (2) only, by an SDO write to object 0x6040, and no
shutdown. -/
theorem stop_control_words (env : Env) (s : St) :
    (∃ txt, newEvents s (stop_v1 env s) =
      [Event.SDOwrite DRIVE_SLAVE IDX_TARGET_TORQUE 0 4 0,
       Event.SDOwrite DRIVE_SLAVE IDX_CONTROLWORD 0 2 CW_QUICK_STOP, Event.Sleep 100,
       Event.SDOwrite DRIVE_SLAVE IDX_CONTROLWORD 0 2 CW_SHUTDOWN,
       Event.SDOread DRIVE_SLAVE IDX_ACTUAL_VELOCITY 0 4,
       Event.SetText Control.rpm txt, Event.ec_close]) ∧
    (newEvents s (stop_v2 env s)).filterMap
      (controlWordOf (pdo_controlword_ptr env DRIVE_SLAVE)) = [(CW_QUICK_STOP : Int)] ∧
    (newEvents s (stop_v2 env s)).filter isSDO =
      (if env.outputs DRIVE_SLAVE = none then
        [Event.SDOwrite DRIVE_SLAVE IDX_TARGET_TORQUE 0 4 0] else []) ++
      [Event.SDOwrite DRIVE_SLAVE IDX_CONTROLWORD 0 2 CW_QUICK_STOP,
       Event.SDOread DRIVE_SLAVE IDX_ACTUAL_VELOCITY 0 4] := by
  refine ⟨?_, ?_, ?_⟩
  · obtain ⟨txt, h⟩ := stop_v1_trace env s
    exact ⟨txt, by
      rw [newEvents_of_append h]
      simp [DRIVE_SLAVE, IDX_TARGET_TORQUE, IDX_CONTROLWORD, IDX_ACTUAL_VELOCITY, CW_QUICK_STOP,
        CW_SHUTDOWN]⟩
  · simp only [DRIVE_SLAVE]
    cases hr : GetDlgItem env.hStaticRPM <;> cases ho : env.outputs 1 <;> cases hi : env.inputs 1 <;>
      simp [newEvents, stop_v2, ec_send_processdata, ec_receive_processdata,
        pdo_target_torque_ptr, pdo_controlword_ptr, ho, hi, poke16, emit, Sleep,
        UpdateStaticText, hr, write_sdo_u16, write_sdo_s32, read_sdo_s32, ec_SDOwrite, ec_SDOread,
        DRIVE_SLAVE, IDX_CONTROLWORD, IDX_TARGET_TORQUE, IDX_ACTUAL_VELOCITY, CW_QUICK_STOP,
        toS32, toU16] <;>
      (try split_ifs) <;> simp [controlWordOf, IDX_CONTROLWORD]
  · simp only [DRIVE_SLAVE]
    cases hr : GetDlgItem env.hStaticRPM <;> cases ho : env.outputs 1 <;> cases hi : env.inputs 1 <;>
      simp [newEvents, stop_v2, ec_send_processdata, ec_receive_processdata,
        pdo_target_torque_ptr, pdo_controlword_ptr, ho, hi, poke16, emit, Sleep,
        UpdateStaticText, hr, write_sdo_u16, write_sdo_s32, read_sdo_s32, ec_SDOwrite, ec_SDOread,
        DRIVE_SLAVE, IDX_CONTROLWORD, IDX_TARGET_TORQUE, IDX_ACTUAL_VELOCITY, CW_QUICK_STOP,
        toS32, toU16] <;>
      (try split_ifs) <;> simp [isSDO]

/-! ## C16: the objects addressed through the parameter channel -/

/-- C16: however long they are followed and whatever the world answers, every SDO request
of v1 `EtherCATThread`, of v2 `RunLoop` and of v2 `EtherCATThread` goes to sub-index 0 of one
of the objects 0x6040, 0x6041, 0x6060, 0x6071, 0x606C; no write addresses the actual
velocity and no read addresses the control word or the mode of operation. -/
theorem sdo_requests_well_addressed (env : Env) (s : St) (fuel : Nat) :
    (∀ e ∈ newEvents s (EtherCATThread_v1 env fuel s).1, sdoAddressOK e) ∧
    (∀ e ∈ newEvents s (RunLoop env fuel s).1, sdoAddressOK e) ∧
    (∀ e ∈ newEvents s (EtherCATThread_v2 env fuel s).1, sdoAddressOK e) :=
  ⟨EtherCATThread_v1_forall env sdoAddressOK
      (fun u e he => sdoAddressOK_of_not_sdo (connect_v1_events env u e he).1)
      (enable_v1_sdoAddressOK env) (cycle_v1_sdoAddressOK env) (stop_v1_sdoAddressOK env) fuel s,
    RunLoop_forall env sdoAddressOK (enable_v2_sdoAddressOK env) (cycle_v2_sdoAddressOK env)
      (stop_v2_sdoAddressOK env) fuel s,
    fun e he => sdoAddressOK_of_not_sdo (EtherCATThread_v2_events env fuel s e he).1⟩

/-! ## C17: write then read through the parameter channel -/

/-- C17: over a fault-free channel, for every address and every signed 32-bit `v`,
`write_sdo_s32` followed by `read_sdo_s32` on the same address returns a positive result
and leaves exactly `v` in the buffer, whatever the buffer held. Over any channel, each of the
four helpers issues exactly one request and returns what the channel returned. -/
theorem sdo_write_read_roundtrip (env : Env) (hff : FaultFree env) (s : St)
    (slave idx sub : Nat) (v out : Int) (h₁ : -2147483648 ≤ v) (h₂ : v < 2147483648) :
    0 < (read_sdo_s32 env (write_sdo_s32 env s slave idx sub v).2 slave idx sub out).1 ∧
    (read_sdo_s32 env (write_sdo_s32 env s slave idx sub v).2 slave idx sub out).2.1 = v ∧
    (read_sdo_s32 env (write_sdo_s32 env s slave idx sub v).2 slave idx sub out).2.2.trace =
      s.trace ++ [Event.SDOwrite slave idx sub 4 v, Event.SDOread slave idx sub 4] ∧
    (∀ (e : Env) (u : St) (val : Nat),
      write_sdo_u8 e u slave idx sub val =
        (e.SDOwrite (u.trace ++ [Event.SDOwrite slave idx sub 1 ((val % 256 : Nat) : Int)]),
          emit u (Event.SDOwrite slave idx sub 1 ((val % 256 : Nat) : Int))) ∧
      write_sdo_u16 e u slave idx sub val =
        (e.SDOwrite (u.trace ++ [Event.SDOwrite slave idx sub 2 ((val % 65536 : Nat) : Int)]),
          emit u (Event.SDOwrite slave idx sub 2 ((val % 65536 : Nat) : Int)))) ∧
    (∀ (e : Env) (u : St) (w : Int),
      write_sdo_s32 e u slave idx sub w =
        (e.SDOwrite (u.trace ++ [Event.SDOwrite slave idx sub 4 (toS32 w)]),
          emit u (Event.SDOwrite slave idx sub 4 (toS32 w))) ∧
      (read_sdo_s32 e u slave idx sub w).1 =
        (e.SDOread (u.trace ++ [Event.SDOread slave idx sub 4])).1 ∧
      (read_sdo_s32 e u slave idx sub w).2.2 = emit u (Event.SDOread slave idx sub 4)) := by
  have hv := toS32_of_range v h₁ h₂
  have hr := (hff (s.trace ++ [Event.SDOwrite slave idx sub 4 v]) slave idx sub 4).2 v
    (lastWritten_append_write slave idx sub 4 v s.trace)
  refine ⟨?_, ?_, ?_, ?_, ?_⟩
  · simpa [read_sdo_s32, write_sdo_s32, ec_SDOread, ec_SDOwrite, emit, hv] using hr.1
  · simp only [read_sdo_s32, write_sdo_s32, ec_SDOread, ec_SDOwrite, emit, hv]
    rw [hr.2]
    simp [hv]
  · simp [read_sdo_s32, write_sdo_s32, ec_SDOread, ec_SDOwrite, emit, hv]
  · intro e u val
    exact ⟨rfl, rfl⟩
  · intro e u w
    exact ⟨rfl, rfl, rfl⟩

/-- The instance of `sdo_write_read_roundtrip` in the object store `storeEnv`: torque -5
written to object 0x6071 of slave 1 and read back over a buffer holding 77. -/
theorem sdo_write_read_roundtrip_witness :
    FaultFree storeEnv ∧
    0 < (read_sdo_s32 storeEnv (write_sdo_s32 storeEnv idle 1 0x6071 0 (-5)).2 1 0x6071 0 77).1 ∧
    (read_sdo_s32 storeEnv (write_sdo_s32 storeEnv idle 1 0x6071 0 (-5)).2 1 0x6071 0 77).2.1
      = -5 :=
  ⟨storeEnv_faultFree,
    (sdo_write_read_roundtrip storeEnv storeEnv_faultFree idle 1 0x6071 0 (-5) 77
      (by decide) (by decide)).1,
    (sdo_write_read_roundtrip storeEnv storeEnv_faultFree idle 1 0x6071 0 (-5) 77
      (by decide) (by decide)).2.1⟩

/-! ## C18: the velocity text of the SDO fallback -/

/-- C18, defect of v2: in a cycle with a null input pointer, let `r` be the SDO read of the
actual velocity as the cycle issues it (buffer `vel_raw` initialised to 0). The cycle calls
`UpdateStaticText` with "RPM: (no velocity)" when the read returned a result `≤ 0`, and
then with the reading tagged "(sdo)" when the value left in `vel_raw` is not 0. Both calls
pass the window handle of `hStaticRPM` where the identifier of the control (20) is
expected, so they set a text only if a child window has that number as its identifier.
After a failed read that left 5 in the buffer (`leakyEnv`) the cycle sets no text: the
reading "RPM: 5 (sdo)" is not published. -/
theorem cycle_v2_sdo_reading_not_set :
    leakyEnv.inputs DRIVE_SLAVE = none ∧
    GetDlgItem leakyEnv.hStaticRPM = none ∧
    (read_sdo_s32 leakyEnv (outputs_v2 leakyEnv (ec_receive_processdata leakyEnv
        (ec_send_processdata leakyEnv idle)).2) DRIVE_SLAVE IDX_ACTUAL_VELOCITY 0 0).1 = 0 ∧
    (read_sdo_s32 leakyEnv (outputs_v2 leakyEnv (ec_receive_processdata leakyEnv
        (ec_send_processdata leakyEnv idle)).2) DRIVE_SLAVE IDX_ACTUAL_VELOCITY 0 0).2.1 = 5 ∧
    newEvents idle (cycle_v2 leakyEnv idle) =
      [Event.send_processdata none, Event.receive_processdata,
       Event.SDOwrite 1 0x6040 0 2 15, Event.SDOwrite 1 0x6071 0 4 500,
       Event.SDOread 1 0x606C 0 4, Event.Sleep 50] ∧
    (∀ (env : Env) (s : St), env.inputs DRIVE_SLAVE = none →
      (newEvents s (cycle_v2 env s)).filter isText =
        (if (read_sdo_s32 env (outputs_v2 env (ec_receive_processdata env
              (ec_send_processdata env s)).2) DRIVE_SLAVE IDX_ACTUAL_VELOCITY 0 0).1 ≤ 0
          then textEvents env.hStaticRPM "RPM: (no velocity)" else []) ++
        (if (read_sdo_s32 env (outputs_v2 env (ec_receive_processdata env
              (ec_send_processdata env s)).2) DRIVE_SLAVE IDX_ACTUAL_VELOCITY 0 0).2.1 ≠ 0
          then textEvents env.hStaticRPM
            (rpmText (read_sdo_s32 env (outputs_v2 env (ec_receive_processdata env
              (ec_send_processdata env s)).2) DRIVE_SLAVE IDX_ACTUAL_VELOCITY 0 0).2.1 false)
          else [])) := by
  refine ⟨rfl, by decide, by decide, by decide, by decide, ?_⟩
  intro env s hi
  simp only [DRIVE_SLAVE] at hi ⊢
  cases hr : GetDlgItem env.hStaticRPM <;> cases ho : env.outputs 1 <;>
    simp [newEvents, cycle_v2, velocity_v2, read_velocity_v2, outputs_v2, ec_send_processdata,
      ec_receive_processdata, pdo_controlword_ptr, pdo_target_torque_ptr,
      pdo_actual_velocity_ptr, ho, hi, poke16, peek32, emit, Sleep, UpdateStaticText, hr,
      write_sdo_u16, write_sdo_s32, read_sdo_s32, ec_SDOwrite, ec_SDOread, DRIVE_SLAVE,
      IDX_CONTROLWORD, IDX_TARGET_TORQUE, IDX_ACTUAL_VELOCITY, CW_ENABLE_OPERATION,
      torque_set_v2, toS32, toU16, textEvents] <;>
    (try split_ifs) <;> simp_all [isText]

/-! ## C19: the layout of the process-data image -/

/-- C19: with the outputs mapped at `p` and the inputs at `q`, the staging of a cycle of v2
leaves 0F 00 (control word 0x000F) at bytes `p`, `p + 1` and F4 01 (torque 500, signed 16
bit, little endian) at bytes `p + 2`, `p + 3`, and changes no other byte of the image; the
image is not written again in the cycle; and the velocity the cycle reads (`vel_raw`, with
`has_pdo_vel` set) is loaded at `q + 2` and is the signed 32-bit little-endian value of
bytes `q + 2 .. q + 5`. -/
theorem cycle_v2_image_layout (env : Env) (s : St) (p q : Nat)
    (ho : env.outputs DRIVE_SLAVE = some p) (hi : env.inputs DRIVE_SLAVE = some q) :
    ((outputs_v2 env s).ec_IOmap p = 0x0F ∧ (outputs_v2 env s).ec_IOmap (p + 1) = 0x00 ∧
      (outputs_v2 env s).ec_IOmap (p + 2) = 0xF4 ∧ (outputs_v2 env s).ec_IOmap (p + 3) = 0x01 ∧
      ∀ a, a < p ∨ p + 4 ≤ a → (outputs_v2 env s).ec_IOmap a = s.ec_IOmap a) ∧
    (cycle_v2 env s).ec_IOmap =
      (outputs_v2 env (ec_receive_processdata env (ec_send_processdata env s)).2).ec_IOmap ∧
    toS16 ((cycle_v2 env s).ec_IOmap (p + 2) + 256 * (cycle_v2 env s).ec_IOmap (p + 3))
      = torque_set_v2 ∧
    Event.load32 (q + 2) ∈ newEvents s (cycle_v2 env s) ∧
    (read_velocity_v2 env
        (outputs_v2 env (ec_receive_processdata env (ec_send_processdata env s)).2)).1 = true ∧
    (read_velocity_v2 env
        (outputs_v2 env (ec_receive_processdata env (ec_send_processdata env s)).2)).2.1 =
      toS32 (((cycle_v2 env s).ec_IOmap (q + 2) +
        256 * (cycle_v2 env s).ec_IOmap (q + 3) + 65536 * (cycle_v2 env s).ec_IOmap (q + 4) +
        16777216 * (cycle_v2 env s).ec_IOmap (q + 5) : Nat) : Int) := by
  refine ⟨outputs_v2_image env s p ho, cycle_v2_image_eq env s, ?_, ?_,
    (cycle_v2_pdo_reading env s q hi).1, ?_⟩
  · obtain ⟨_, _, h2, h3⟩ := cycle_v2_image env s p ho
    rw [h2, h3]
    decide
  · simp only [DRIVE_SLAVE] at ho hi
    simp [newEvents, cycle_v2, velocity_v2, read_velocity_v2, outputs_v2, ec_send_processdata,
      ec_receive_processdata, pdo_controlword_ptr, pdo_target_torque_ptr,
      pdo_actual_velocity_ptr, ho, hi, poke16, peek32, emit, Sleep, UpdateStaticText_eq,
      DRIVE_SLAVE]
  · rw [(cycle_v2_pdo_reading env s q hi).2.1]
    simp only [load32le, Nat.add_assoc]

/-- The instance of `cycle_v2_image_layout` in `mappedEnv` (outputs at 0, inputs at 16)
from the zeroed image. -/
theorem cycle_v2_image_layout_witness :
    mappedEnv.outputs DRIVE_SLAVE = some 0 ∧ mappedEnv.inputs DRIVE_SLAVE = some 16 ∧
    (cycle_v2 mappedEnv idle).ec_IOmap =
      (outputs_v2 mappedEnv (ec_receive_processdata mappedEnv
        (ec_send_processdata mappedEnv idle)).2).ec_IOmap ∧
    Event.load32 (16 + 2) ∈ newEvents idle (cycle_v2 mappedEnv idle) :=
  ⟨rfl, rfl, (cycle_v2_image_layout mappedEnv idle 0 16 rfl rfl).2.1,
    (cycle_v2_image_layout mappedEnv idle 0 16 rfl rfl).2.2.2.1⟩

/-! ## C20: no SDO request before the bus is up (v1) -/

/-- C20: when one of the three checks of the bus bring-up of v1 fails (`ec_init`,
`ec_config_init`, the state of the drive slave), every run of `EtherCATThread` returns 1
and has issued no SDO request, no process-data call and no access to the image: so no
torque write and no control-word write. -/
theorem connect_failure_issues_no_sdo (env : Env) (s : St) (fuel : Nat)
    (h : ¬ (env.ec_init ≠ 0 ∧ 0 < env.ec_config_init ∧ env.slave_state = EC_STATE_OPERATIONAL)) :
    (EtherCATThread_v1 env fuel s).2 = some 1 ∧
    (∀ e ∈ newEvents s (EtherCATThread_v1 env fuel s).1,
      isSDO e = false ∧ isPD e = false ∧ isImageAccess e = false) ∧
    (newEvents s (EtherCATThread_v1 env fuel s).1).filterMap (torqueOf none) = [] ∧
    (newEvents s (EtherCATThread_v1 env fuel s).1).filterMap (controlWordOf none) = [] := by
  have hcon : ¬ (connect_v1 env s).1 = true := fun hc => h ((connect_v1_ok env s).1 hc)
  have hst : EtherCATThread_v1 env fuel s = ((connect_v1 env s).2, some 1) := by
    simp only [EtherCATThread_v1, if_neg hcon]
  rw [hst]
  refine ⟨rfl, connect_v1_events env s, ?_, ?_⟩
  · exact filterMap_eq_nil_of_forall _ _ fun e he =>
      (commands_none_of_quiet none (connect_v1_events env s e he).1
        (connect_v1_events env s e he).2.2).1
  · exact filterMap_eq_nil_of_forall _ _ fun e he =>
      (commands_none_of_quiet none (connect_v1_events env s e he).1
        (connect_v1_events env s e he).2.2).2

/-- The instance of `connect_failure_issues_no_sdo` in a world where `ec_init` fails. -/
theorem connect_failure_issues_no_sdo_witness :
    ¬ (noBusEnv.ec_init ≠ 0 ∧ 0 < noBusEnv.ec_config_init ∧
      noBusEnv.slave_state = EC_STATE_OPERATIONAL) ∧
    (EtherCATThread_v1 noBusEnv 3 idle).2 = some 1 ∧
    (∀ e ∈ newEvents idle (EtherCATThread_v1 noBusEnv 3 idle).1,
      isSDO e = false ∧ isPD e = false ∧ isImageAccess e = false) :=
  ⟨by decide, (connect_failure_issues_no_sdo noBusEnv idle 3 (by decide)).1,
    (connect_failure_issues_no_sdo noBusEnv idle 3 (by decide)).2.1⟩

/-! ## C21: a disconnect request while the torque loop runs (v2) -/

/-- C21: in v2, the Connect command handled while `connected_flag` is true only sets
`connected_flag` to false and reports "Disconnecting...": `run_flag`, the thread handles
and everything else stay as they were, and no thread is waited for. The connect thread,
once it reads `connected_flag` false, closes the bus, calls `UpdateStaticText` with
"Disconnected" and returns 0 without writing `run_flag`. The torque loop is left only when `run_flag` reads false: as
long as it reads true, `RunLoop` is still in its loop and has written the torque setpoint
once per cycle, whatever the bus answers. -/
theorem disconnect_leaves_torque_loop_running (created : Bool) (g : Gui) (env : Env)
    (s u : St) (k fuel : Nat) (hg : g.connected_flag = true)
    (hcon : (connect_v2 env s).1 = true) (hcf : env.connected_flag (s.waits + k) = false) :
    WndProc_v2 created g (Msg.WM_COMMAND 10) =
      { g with connected_flag := false,
               log := g.log ++ [GuiEvent.SetText Control.state "Disconnecting..."] } ∧
    (WndProc_v2 created g (Msg.WM_COMMAND 10)).run_flag = g.run_flag ∧
    (EtherCATThread_v2 env (k + 1) s).2 = some 0 ∧
    (∃ pre, newEvents s (EtherCATThread_v2 env (k + 1) s).1 =
      pre ++ Event.ec_close :: textEvents env.hStaticState "Disconnected") ∧
    (EtherCATThread_v2 env (k + 1) s).1.run_flag = s.run_flag ∧
    ((RunLoop env fuel u).2 = none ↔ ∀ j < fuel, env.run_flag (u.polls + j) = true) ∧
    ((∀ j < fuel, env.run_flag (u.polls + j) = true) →
      (newEvents u (RunLoop env fuel u).1).filterMap
        (torqueOf (pdo_target_torque_ptr env DRIVE_SLAVE)) = List.replicate fuel 500) := by
  obtain ⟨h1, h2, h3⟩ := EtherCATThread_v2_disconnect env k s hcon hcf
  refine ⟨?_, ?_, h1, h2, h3, RunLoop_running env fuel u,
    fun h => (RunLoop_running_commands env fuel u h).1⟩
  · simp [WndProc_v2, hg, Gui.emit, Gui.UpdateStaticText, GetDlgItem]
  · simp [WndProc_v2, hg, Gui.emit, Gui.UpdateStaticText, GetDlgItem]

/-- The instance of `disconnect_leaves_torque_loop_running` for a connected, running
controller in `stuckEnv`, where `run_flag` keeps reading true and `connected_flag` reads
false at the first look: after the disconnect request `run_flag` is still true, the connect
thread returns 0, and `RunLoop` is still in its loop after 3 tests. -/
theorem disconnect_leaves_torque_loop_running_witness :
    (WndProc_v2 true { freshGui with connected_flag := true, run_flag := true }
      (Msg.WM_COMMAND 10)).run_flag = true ∧
    (EtherCATThread_v2 stuckEnv (0 + 1) idle).2 = some 0 ∧
    ((RunLoop stuckEnv 3 idle).2 = none ↔ ∀ j < 3, stuckEnv.run_flag (idle.polls + j) = true) ∧
    (RunLoop stuckEnv 3 idle).2 = none :=
  ⟨(disconnect_leaves_torque_loop_running true
      { freshGui with connected_flag := true, run_flag := true } stuckEnv idle idle 0 3
      rfl (by decide) rfl).2.1,
    (disconnect_leaves_torque_loop_running true
      { freshGui with connected_flag := true, run_flag := true } stuckEnv idle idle 0 3
      rfl (by decide) rfl).2.2.1,
    (disconnect_leaves_torque_loop_running true
      { freshGui with connected_flag := true, run_flag := true } stuckEnv idle idle 0 3
      rfl (by decide) rfl).2.2.2.2.2.1,
    by decide⟩

/-! ## C22: the flags of the simulator -/

/-- C22: in both simulator variants, from the initial state and after every finite sequence
of window messages (Connect, Start, Stop, Close and any other) and turns of the simulation
thread, `inOperation` implies `isConnected`. From any state, no step and no sequence of
steps takes `isConnected` back to false, and Start in a state with `isConnected` false
leaves `inOperation` as it was. -/
theorem simulator_flags (fl : SimFloat) (inputs : List SimInput) :
    ((simRun fl freshSim inputs).inOperation = true →
      (simRun fl freshSim inputs).isConnected = true) ∧
    ((simRun_main fl freshSim inputs).inOperation = true →
      (simRun_main fl freshSim inputs).isConnected = true) ∧
    (∀ g : Sim, g.isConnected = true →
      (∀ i, (simStep fl g i).isConnected = true) ∧ (simRun fl g inputs).isConnected = true) ∧
    (∀ g : Sim, g.isConnected = true →
      (∀ i, (simStep_main fl g i).isConnected = true) ∧
      (simRun_main fl g inputs).isConnected = true) ∧
    (∀ g : Sim, g.isConnected = false →
      (WindowProc g (Msg.WM_COMMAND IDC_START_BUTTON)).inOperation = g.inOperation ∧
      (WindowProc_main g (Msg.WM_COMMAND IDC_START_BUTTON)).inOperation = g.inOperation) := by
  refine ⟨?_, ?_, ?_, ?_, ?_⟩
  · exact (simRun_flags fl inputs freshSim).2 (by decide)
  · exact (simRun_main_flags fl inputs freshSim).2 (by decide)
  · exact fun g h => ⟨fun i => (simStep_flags fl g i).1 h, (simRun_flags fl inputs g).1 h⟩
  · exact fun g h =>
      ⟨fun i => (simStep_main_flags fl g i).1 h, (simRun_main_flags fl inputs g).1 h⟩
  · intro g h
    simp [WindowProc, WindowProc_main, h, IDC_START_BUTTON, IDC_CONNECT_BUTTON, Sim.emit]

end L7NH
